import Mathlib

/-!
Verification of the lawg.py client library core: the request/response
validation and construction layer (sentinel-based patch semantics, schema
validation, URL slug substitution, request building, response unwrapping)
and the object-wrapper deletion state machine.

Sources embedded: `lawg/syncio/rest.py`, `lawg/syncio/client.py`,
`lawg/base/client.py`, `lawg/syncio/project.py`, `lawg/syncio/event.py`.
The modules `lawg/base/rest.py` (prepare_request / prepare_response, URL
templates), `lawg/typings.py` and `lawg/schemas.py` are not part of the
source tree; definitions taken from them are modelled from the spec and
say so in their doc comments.
-/

namespace Lawg

/-- JSON-like values appearing in request bodies and response payloads. -/
inductive JVal where
  | null : JVal
  | bool (b : Bool) : JVal
  | str (s : String) : JVal
  | num (n : Int) : JVal
  | arr (xs : List JVal) : JVal
  | obj (kvs : List (String × JVal)) : JVal

/-- An argument to an edit operation, as in `lawg/typings.py`:
`UNDEFINED` is the patch-value sentinel (`Arg.undef`), distinct from
Python `None` (`Arg.val JVal.null`) and from any concrete value. -/
inductive Arg where
  | undef : Arg
  | val (v : JVal) : Arg

/-- Python `None` passed explicitly as an argument. -/
def Arg.none : Arg := Arg.val JVal.null

/-- A string body/slug dict after sentinel filtering: field name to value. -/
abbrev StrDict := List (String × JVal)

/-- Modelled from the spec: before building a body payload the client
filters out any field whose argument equals the sentinel; fields that are
explicitly null are retained with value null (spec 4.1; performed in the
missing `lawg/base/rest.py` during `prepare_request`). -/
def filterUndefined (data : List (String × Arg)) : StrDict :=
  data.filterMap fun kv =>
    match kv.2 with
    | Arg.undef => Option.none
    | Arg.val v => Option.some (kv.1, v)

/-- A validation error: offending field name and reason (spec 4.2). -/
structure ValErr where
  field : String
  reason : String
deriving Repr, DecidableEq

/-- Modelled from the spec: per-field declaration of a declarative schema
(spec 4.2): required fields must be present and non-empty, optional
fields may be absent; null is tolerated exactly when the field is
nullable. -/
structure FieldSpec where
  name : String
  required : Bool
  nullable : Bool
deriving Repr, DecidableEq

/-- Modelled from the spec: a declarative body/slug schema is a list of
field declarations; unknown fields are rejected (spec 4.2). -/
structure BodySchema where
  fields : List FieldSpec
deriving Repr, DecidableEq

/-- Whether a value satisfies one field declaration: null only when the
field is nullable, a required string must be non-empty (spec 4.2). -/
def fieldOk (spec : FieldSpec) (v : JVal) : Bool :=
  match v with
  | JVal.null => spec.nullable
  | JVal.str s => !spec.required || !s.isEmpty
  | _ => true

/-- Modelled from the spec: schema load (spec 4.2): reject unknown
fields, require each required field to be present and valid, check every
present field; normalization keeps the mapping unchanged. -/
def BodySchema.load (schema : BodySchema) (d : StrDict) : Except ValErr StrDict :=
  match d.find? (fun kv => !(schema.fields.any (fun f => f.name == kv.1))) with
  | Option.some kv => Except.error ⟨kv.1, "unknown field"⟩
  | Option.none =>
    match schema.fields.find? (fun f =>
        match d.lookup f.name with
        | Option.none => f.required
        | Option.some v => !fieldOk f v) with
    | Option.some f => Except.error ⟨f.name, "invalid field"⟩
    | Option.none => Except.ok d

/-- A segment of a URL template: literal text or a `\x7bname\x7d`
placeholder. -/
inductive Seg where
  | lit (s : String) : Seg
  | slot (name : String) : Seg
deriving Repr, DecidableEq

/-- A URL template is a sequence of segments (spec 4.3). -/
abbrev UrlTemplate := List Seg

/-- Hex digit for percent escapes. -/
def hexDigit (n : Nat) : Char :=
  if n < 10 then Char.ofNat (48 + n) else Char.ofNat (55 + n)

/-- Modelled from the spec: percent-escaping of a slug value before URL
substitution (spec 4.3): unreserved characters pass through, every other
character becomes a percent escape of its code point (low byte). -/
def percentEscapeChar (c : Char) : List Char :=
  if c.isAlphanum || c = '-' || c = '.' || c = '_' || c = '~' then [c]
  else ['%', hexDigit (c.toNat % 256 / 16), hexDigit (c.toNat % 16)]

/-- Percent-escape a whole slug value. -/
def percentEscape (s : String) : String :=
  String.mk (s.toList.flatMap percentEscapeChar)

/-- Modelled from the spec: URL template substitution (spec 4.3): every
placeholder is replaced by the corresponding percent-escaped slug value;
a missing slug fails fast. Lives in the missing `lawg/base/rest.py`. -/
def renderTemplate (tpl : UrlTemplate) (slugs : List (String × String)) :
    Option String :=
  match tpl with
  | [] => Option.some ""
  | Seg.lit s :: rest =>
    (renderTemplate rest slugs).map (fun u => s ++ u)
  | Seg.slot n :: rest =>
    match slugs.lookup n with
    | Option.none => Option.none
    | Option.some v => (renderTemplate rest slugs).map (fun u => percentEscape v ++ u)

/-- `DataWithSchema` from `lawg/typings.py` (module absent from the
source tree): a raw data dict paired with the schema that validates it. -/
structure DataWithSchema where
  data : List (String × Arg)
  schema : BodySchema

/-- The request descriptor handed to the transport: method, rendered URL
and optional JSON body (spec 4.3, 6). -/
structure HttpRequest where
  method : String
  url : String
  body : Option StrDict

/-- A raw HTTP response: status code plus parsed JSON body (spec 4.4). -/
structure HttpResponse where
  status : Nat
  body : JVal

/-- The error taxonomy of spec 7. -/
inductive LawgError where
  | validation (e : ValErr) : LawgError
  | api (status : Nat) (message : String) : LawgError
  | transportFail (message : String) : LawgError
  | alreadyDeleted (what : String) : LawgError

/-- The transport collaborator: one `execute` primitive taking the
request descriptor to a status/body pair or a transport failure
(spec 6). -/
def Transport := HttpRequest → Except String HttpResponse

/-- A response schema: the entity schema for the `data` payload plus the
marshmallow-style `many` flag (`LogSchema(many=True)` in the source). -/
structure ResponseSchema where
  entity : BodySchema
  many : Bool

/-- Unwrapped, validated response payload handed back to the caller. -/
inductive RespData where
  | blank : RespData
  | one (d : StrDict) : RespData
  | records (ds : List StrDict) : RespData

/-- Validate one entity record against its schema: the payload must be a
JSON object that loads under the schema (spec 4.4). -/
def loadEntity (schema : BodySchema) (v : JVal) : Except ValErr StrDict :=
  match v with
  | JVal.obj kvs => schema.load kvs
  | _ => Except.error ⟨"data", "record is not an object"⟩

/-- Validate every element of a list payload independently, failing the
whole list on the first element failure (spec 4.4). -/
def loadEntities (schema : BodySchema) : List JVal → Except ValErr (List StrDict)
  | [] => Except.ok []
  | v :: vs =>
    match loadEntity schema v with
    | Except.error e => Except.error e
    | Except.ok d =>
      match loadEntities schema vs with
      | Except.error e => Except.error e
      | Except.ok ds => Except.ok (d :: ds)

/-- Keep only the string-valued entries of a validated slug dict, for URL
substitution. -/
def slugStrings (d : StrDict) : List (String × String) :=
  d.filterMap fun kv =>
    match kv.2 with
    | JVal.str s => Option.some (kv.1, s)
    | _ => Option.none

/-- Modelled from the spec: the slug half of `prepare_request` of the
missing `lawg/base/rest.py`: filter sentinel fields from the slug dict,
validate it against the slug schema, substitute into the URL template
(spec 4.2-4.3). -/
def prepare_slugs (url : UrlTemplate) (slugsWS : Option DataWithSchema) :
    Except ValErr String :=
  let renderStep : List (String × String) → Except ValErr String := fun slugs =>
    match renderTemplate url slugs with
    | Option.none => Except.error ⟨"slugs", "missing slug for placeholder"⟩
    | Option.some u => Except.ok u
  match slugsWS with
  | Option.none => renderStep []
  | Option.some sws =>
    match sws.schema.load (filterUndefined sws.data) with
    | Except.error e => Except.error e
    | Except.ok sd => renderStep (slugStrings sd)

/-- Modelled from the spec: `prepare_request` of the missing
`lawg/base/rest.py`: filter sentinel fields, validate slugs and body
against their schemas, substitute slugs into the URL template (spec 2,
4.1-4.3). Returns the rendered URL and the optional JSON body, or the
first validation error; no body field is produced when no body data was
supplied. -/
def prepare_request (url : UrlTemplate) (bodyWS slugsWS : Option DataWithSchema) :
    Except ValErr (String × Option StrDict) :=
  match prepare_slugs url slugsWS with
  | Except.error e => Except.error e
  | Except.ok u =>
    match bodyWS with
    | Option.none => Except.ok (u, Option.none)
    | Option.some bws =>
      match bws.schema.load (filterUndefined bws.data) with
      | Except.error e => Except.error e
      | Except.ok bd => Except.ok (u, Option.some bd)

/-- Extract the server-provided error message from an error envelope, if
present (spec 4.4, 8). -/
def errorMessage (body : JVal) : String :=
  match body with
  | JVal.obj kvs =>
    match kvs.lookup "error" with
    | Option.some (JVal.str m) => m
    | _ => "request failed"
  | _ => "request failed"

/-- Modelled from the spec: `prepare_response` of the missing
`lawg/base/rest.py` (spec 4.4): non-2xx maps to an API error; on 2xx the
`\x7bsuccess, data\x7d` envelope is validated, then `data` is validated
against the entity schema — as a single record, or, in many mode, as a
list each of whose elements must validate, failing the whole call on any
element failure. -/
def prepare_response (resp : HttpResponse) (respSchema : Option ResponseSchema) :
    Except LawgError RespData :=
  if resp.status < 200 || 300 ≤ resp.status then
    Except.error (LawgError.api resp.status (errorMessage resp.body))
  else
    match resp.body with
    | JVal.obj kvs =>
      match kvs.lookup "success" with
      | Option.some (JVal.bool true) =>
        match respSchema with
        | Option.none => Except.ok RespData.blank
        | Option.some rs =>
          match kvs.lookup "data" with
          | Option.none => Except.error (LawgError.validation ⟨"data", "missing"⟩)
          | Option.some payload =>
            if rs.many then
              match payload with
              | JVal.arr xs =>
                match loadEntities rs.entity xs with
                | Except.error e => Except.error (LawgError.validation e)
                | Except.ok ds => Except.ok (RespData.records ds)
              | _ => Except.error (LawgError.validation ⟨"data", "not a list"⟩)
            else
              match loadEntity rs.entity payload with
              | Except.error e => Except.error (LawgError.validation e)
              | Except.ok d => Except.ok (RespData.one d)
      | _ => Except.error (LawgError.validation ⟨"success", "envelope not successful"⟩)
    | _ => Except.error (LawgError.validation ⟨"response", "not an object"⟩)

/-- `Rest.request` (`lawg/syncio/rest.py` lines 56-69): prepare the
request, execute it on the transport, prepare the response. The second
component is the trace of requests actually handed to the transport's
execute primitive during the call. -/
def Rest.request (transport : Transport) (url : UrlTemplate) (method : String)
    (bodyWS slugsWS : Option DataWithSchema) (respSchema : Option ResponseSchema) :
    Except LawgError RespData × List HttpRequest :=
  match prepare_request url bodyWS slugsWS with
  | Except.error e => (Except.error (LawgError.validation e), [])
  | Except.ok (u, bodyDict) =>
    let req : HttpRequest := ⟨method, u, bodyDict⟩
    match transport req with
    | Except.error m => (Except.error (LawgError.transportFail m), [req])
    | Except.ok resp => (prepare_response resp respSchema, [req])

/-! URL templates of the missing `lawg/base/rest.py`, modelled from the
spec: endpoint paths of spec 6 with the slugs named there and in the
end-to-end scenarios of spec 8. -/

/-- Modelled from the spec: `POST /projects` (spec 8). -/
def API_CREATE_PROJECT : UrlTemplate := [Seg.lit "/projects"]

/-- Modelled from the spec: project path with `namespace` slug (spec 6). -/
def API_GET_PROJECT : UrlTemplate := [Seg.lit "/projects/", Seg.slot "namespace"]

/-- Modelled from the spec: project path with `namespace` slug (spec 6). -/
def API_EDIT_PROJECT : UrlTemplate := API_GET_PROJECT

/-- Modelled from the spec: project path with `namespace` slug (spec 6). -/
def API_DELETE_PROJECT : UrlTemplate := API_GET_PROJECT

/-- Modelled from the spec: feed collection path (spec 6, 8). -/
def API_CREATE_FEED : UrlTemplate :=
  [Seg.lit "/projects/", Seg.slot "namespace", Seg.lit "/feeds"]

/-- Modelled from the spec: feed path with `namespace` and `feed` slugs
(spec 8: `/projects/test/feeds/news`). -/
def API_EDIT_FEED : UrlTemplate :=
  [Seg.lit "/projects/", Seg.slot "namespace", Seg.lit "/feeds/", Seg.slot "feed"]

/-- Modelled from the spec: feed path with `namespace` and `feed` slugs. -/
def API_DELETE_FEED : UrlTemplate := API_EDIT_FEED

/-- Modelled from the spec: log collection path under a feed (spec 6). -/
def API_CREATE_LOG : UrlTemplate :=
  [Seg.lit "/projects/", Seg.slot "namespace", Seg.lit "/feeds/", Seg.slot "feed",
   Seg.lit "/logs"]

/-- Modelled from the spec: log path with `log_id` slug (spec 6). -/
def API_GET_LOG : UrlTemplate :=
  [Seg.lit "/projects/", Seg.slot "namespace", Seg.lit "/feeds/", Seg.slot "feed",
   Seg.lit "/logs/", Seg.slot "log_id"]

/-- Modelled from the spec: log collection path under a feed (spec 6). -/
def API_GET_LOGS : UrlTemplate := API_CREATE_LOG

/-- Modelled from the spec: log path with `log_id` slug (spec 6). -/
def API_EDIT_LOG : UrlTemplate := API_GET_LOG

/-- Modelled from the spec: log path with `log_id` slug (spec 6). -/
def API_DELETE_LOG : UrlTemplate := API_GET_LOG

/-- Modelled from the spec: insight collection path (spec 6). -/
def API_CREATE_INSIGHT : UrlTemplate :=
  [Seg.lit "/projects/", Seg.slot "namespace", Seg.lit "/insights"]

/-- Modelled from the spec: insight collection path; the source uses the
same constant for fetch-one and fetch-many (`lawg/syncio/rest.py` lines
330-350), so the template carries only the `namespace` slug. -/
def API_GET_INSIGHTS : UrlTemplate := API_CREATE_INSIGHT

/-- Modelled from the spec: insight path with `insight_id` slug (spec 6). -/
def API_EDIT_INSIGHT : UrlTemplate :=
  [Seg.lit "/projects/", Seg.slot "namespace", Seg.lit "/insights/",
   Seg.slot "insight_id"]

/-- Modelled from the spec: insight path with `insight_id` slug (spec 6). -/
def API_DELETE_INSIGHT : UrlTemplate := API_EDIT_INSIGHT

/-! Schemas of the missing `lawg/schemas.py`, modelled from the spec
(spec 4.2): create schemas require their mandatory fields non-empty;
patch schemas make every field optional and nullable; slug schemas
require every slug. -/

/-- Modelled from the spec: project creation body, `name` and
`namespace` required (spec 4.2, 8). -/
def ProjectCreateBodySchema : BodySchema :=
  ⟨[⟨"namespace", true, false⟩, ⟨"name", true, false⟩]⟩

/-- Modelled from the spec: shared project body schema used by the base
client and the syncio client (`ProjectBodySchema` import in
`lawg/base/client.py` and `lawg/syncio/client.py`). -/
def ProjectBodySchema : BodySchema := ProjectCreateBodySchema

/-- Modelled from the spec: project edit body, only `name` (source
`Rest.edit_project` sends only `name`). -/
def ProjectPatchBodySchema : BodySchema := ⟨[⟨"name", true, false⟩]⟩

/-- Modelled from the spec: project slug, `namespace` required. -/
def ProjectGetSlugSchema : BodySchema := ⟨[⟨"namespace", true, false⟩]⟩

/-- Modelled from the spec: project slug, `namespace` required. -/
def ProjectPatchSlugSchema : BodySchema := ProjectGetSlugSchema

/-- Modelled from the spec: project slug, `namespace` required. -/
def ProjectDeleteSlugSchema : BodySchema := ProjectGetSlugSchema

/-- Modelled from the spec: project slug used by the syncio client. -/
def ProjectSlugSchema : BodySchema := ProjectGetSlugSchema

/-- Modelled from the spec: feed creation body, `name` required,
`description`/`emoji` optional and nullable. -/
def FeedCreateBodySchema : BodySchema :=
  ⟨[⟨"name", true, false⟩, ⟨"description", false, true⟩, ⟨"emoji", false, true⟩]⟩

/-- Modelled from the spec: feed patch body, every field optional and
nullable (spec 4.2, 4.5). -/
def FeedPatchBodySchema : BodySchema :=
  ⟨[⟨"name", false, true⟩, ⟨"description", false, true⟩, ⟨"emoji", false, true⟩]⟩

/-- Modelled from the spec: feed creation slug, `namespace` required. -/
def FeedCreateSlugSchema : BodySchema := ⟨[⟨"namespace", true, false⟩]⟩

/-- Modelled from the spec: feed slug, `namespace` and `feed` required. -/
def FeedPatchSlugSchema : BodySchema :=
  ⟨[⟨"namespace", true, false⟩, ⟨"feed", true, false⟩]⟩

/-- Modelled from the spec: feed slug, `namespace` and `feed` required. -/
def FeedDeleteSlugSchema : BodySchema := FeedPatchSlugSchema

/-- Modelled from the spec: log creation body, `title` required, the
rest optional and nullable. -/
def LogCreateBodySchema : BodySchema :=
  ⟨[⟨"title", true, false⟩, ⟨"description", false, true⟩, ⟨"emoji", false, true⟩,
    ⟨"color", false, true⟩]⟩

/-- Modelled from the spec: log patch body, every field optional and
nullable. -/
def LogPatchBodySchema : BodySchema :=
  ⟨[⟨"title", false, true⟩, ⟨"description", false, true⟩, ⟨"emoji", false, true⟩,
    ⟨"color", false, true⟩]⟩

/-- Modelled from the spec: fetch-many pagination body, `limit` and
`offset` both optional (spec 4.5). -/
def LogGetMultipleBodySchema : BodySchema :=
  ⟨[⟨"limit", false, true⟩, ⟨"offset", false, true⟩]⟩

/-- Modelled from the spec: log slug, `namespace` and `feed` required. -/
def LogCreateSlugSchema : BodySchema :=
  ⟨[⟨"namespace", true, false⟩, ⟨"feed", true, false⟩]⟩

/-- Modelled from the spec: log slug with `log_id`. -/
def LogGetSlugSchema : BodySchema :=
  ⟨[⟨"namespace", true, false⟩, ⟨"feed", true, false⟩, ⟨"log_id", true, false⟩]⟩

/-- Modelled from the spec: log fetch-many slug, `namespace` and `feed`. -/
def LogGetMultipleSlugSchema : BodySchema := LogCreateSlugSchema

/-- Modelled from the spec: log slug with `log_id`. -/
def LogPatchSlugSchema : BodySchema := LogGetSlugSchema

/-- Modelled from the spec: log slug with `log_id`. -/
def LogDeleteSlugSchema : BodySchema := LogGetSlugSchema

/-- Modelled from the spec: insight creation body, `title` required. -/
def InsightCreateBodySchema : BodySchema :=
  ⟨[⟨"title", true, false⟩, ⟨"description", false, true⟩, ⟨"emoji", false, true⟩,
    ⟨"value", false, true⟩]⟩

/-- Modelled from the spec: insight patch body, every field optional and
nullable. -/
def InsightPatchBodySchema : BodySchema :=
  ⟨[⟨"title", false, true⟩, ⟨"description", false, true⟩, ⟨"emoji", false, true⟩,
    ⟨"value", false, true⟩]⟩

/-- Modelled from the spec: insight creation slug, `namespace`. -/
def InsightCreateSlugSchema : BodySchema := ⟨[⟨"namespace", true, false⟩]⟩

/-- Modelled from the spec: insight slug with `insight_id`. -/
def InsightGetSlugSchema : BodySchema :=
  ⟨[⟨"namespace", true, false⟩, ⟨"insight_id", true, false⟩]⟩

/-- Modelled from the spec: insight fetch-many slug, `namespace` only. -/
def InsightGetMultipleBodySchema : BodySchema := InsightCreateSlugSchema

/-- Modelled from the spec: insight slug with `insight_id`. -/
def InsightPatchSlugSchema : BodySchema := InsightGetSlugSchema

/-- Modelled from the spec: the schema `lawg/syncio/rest.py` line 393
passes as the delete-insight slug schema; modelled as the insight slug
set of spec 6. -/
def InsightValueSchema : BodySchema := InsightGetSlugSchema

/-- Modelled from the spec: project entity record (spec 3, 8 and the
fields read by `Client._construct_project`). -/
def ProjectSchema : BodySchema :=
  ⟨[⟨"id", true, false⟩, ⟨"namespace", true, false⟩, ⟨"name", true, false⟩,
    ⟨"flags", false, true⟩, ⟨"icon", false, true⟩, ⟨"feeds", false, true⟩,
    ⟨"members", false, true⟩]⟩

/-- Modelled from the spec: feed entity record (fields read by
`Client._construct_feed`). -/
def FeedSchema : BodySchema :=
  ⟨[⟨"id", true, false⟩, ⟨"project_id", true, false⟩, ⟨"name", true, false⟩,
    ⟨"description", false, true⟩, ⟨"emoji", false, true⟩]⟩

/-- Modelled from the spec: log entity record (fields read by
`Client._construct_log`). -/
def LogSchema : BodySchema :=
  ⟨[⟨"id", true, false⟩, ⟨"project_id", true, false⟩, ⟨"feed_id", true, false⟩,
    ⟨"title", true, false⟩, ⟨"description", false, true⟩, ⟨"emoji", false, true⟩,
    ⟨"color", false, true⟩]⟩

/-- Modelled from the spec: insight entity record (spec 3). -/
def InsightSchema : BodySchema :=
  ⟨[⟨"id", true, false⟩, ⟨"project_id", true, false⟩, ⟨"title", true, false⟩,
    ⟨"description", false, true⟩, ⟨"emoji", false, true⟩, ⟨"value", false, true⟩]⟩

/-- A plain Python string argument. -/
def strArg (s : String) : Arg := Arg.val (JVal.str s)

/-- The JSON value of a `str | None` Python argument. -/
def optStr (o : Option String) : JVal :=
  match o with
  | Option.none => JVal.null
  | Option.some s => JVal.str s

/-- A `str | None` Python argument (default `None`). -/
def optStrArg (o : Option String) : Arg := Arg.val (optStr o)

/-- The JSON value of an `int | None` Python argument. -/
def optInt (o : Option Int) : JVal :=
  match o with
  | Option.none => JVal.null
  | Option.some n => JVal.num n

/-- An `int | None` Python argument (default `None`). -/
def optIntArg (o : Option Int) : Arg := Arg.val (optInt o)

/-! The entity-client operations of `lawg/syncio/rest.py`, transliterated
line by line: each builds its slug/body dicts in source order and makes
one `Rest.request` call. Each returns the call's result and the trace of
requests handed to the transport. -/

/-- `Rest.create_project` (`lawg/syncio/rest.py` lines 73-84). -/
def Rest.create_project (transport : Transport) (project project_name : String) :
    Except LawgError RespData × List HttpRequest :=
  let body := [("namespace", strArg project), ("name", strArg project_name)]
  Rest.request transport API_CREATE_PROJECT "POST"
    (Option.some ⟨body, ProjectCreateBodySchema⟩) Option.none
    (Option.some ⟨ProjectSchema, false⟩)

/-- `Rest.fetch_project` (`lawg/syncio/rest.py` lines 86-96). -/
def Rest.fetch_project (transport : Transport) (project : String) :
    Except LawgError RespData × List HttpRequest :=
  let slugs := [("namespace", strArg project)]
  Rest.request transport API_GET_PROJECT "GET"
    Option.none (Option.some ⟨slugs, ProjectGetSlugSchema⟩)
    (Option.some ⟨ProjectSchema, false⟩)

/-- `Rest.edit_project` (`lawg/syncio/rest.py` lines 98-112). -/
def Rest.edit_project (transport : Transport) (project project_name : String) :
    Except LawgError RespData × List HttpRequest :=
  let slugs := [("namespace", strArg project)]
  let body := [("name", strArg project_name)]
  Rest.request transport API_EDIT_PROJECT "PATCH"
    (Option.some ⟨body, ProjectPatchBodySchema⟩)
    (Option.some ⟨slugs, ProjectPatchSlugSchema⟩)
    (Option.some ⟨ProjectSchema, false⟩)

/-- `Rest.delete_project` (`lawg/syncio/rest.py` lines 114-122). -/
def Rest.delete_project (transport : Transport) (project : String) :
    Except LawgError RespData × List HttpRequest :=
  let slugs := [("namespace", strArg project)]
  Rest.request transport API_DELETE_PROJECT "DELETE"
    Option.none (Option.some ⟨slugs, ProjectDeleteSlugSchema⟩) Option.none

/-- `Rest.create_feed` (`lawg/syncio/rest.py` lines 126-148). -/
def Rest.create_feed (transport : Transport) (project feed : String)
    (description emoji : Option String) :
    Except LawgError RespData × List HttpRequest :=
  let slugs := [("namespace", strArg project)]
  let data := [("name", strArg feed), ("description", optStrArg description),
               ("emoji", optStrArg emoji)]
  Rest.request transport API_CREATE_FEED "POST"
    (Option.some ⟨data, FeedCreateBodySchema⟩)
    (Option.some ⟨slugs, FeedCreateSlugSchema⟩)
    (Option.some ⟨FeedSchema, false⟩)

/-- `Rest.edit_feed` (`lawg/syncio/rest.py` lines 150-174); the three
optional fields default to the `UNDEFINED` sentinel in the source. -/
def Rest.edit_feed (transport : Transport) (project feed : String)
    (name description emoji : Arg) :
    Except LawgError RespData × List HttpRequest :=
  let slugs := [("namespace", strArg project), ("feed", strArg feed)]
  let data := [("name", name), ("description", description), ("emoji", emoji)]
  Rest.request transport API_EDIT_FEED "PATCH"
    (Option.some ⟨data, FeedPatchBodySchema⟩)
    (Option.some ⟨slugs, FeedPatchSlugSchema⟩)
    (Option.some ⟨FeedSchema, false⟩)

/-- `Rest.delete_feed` (`lawg/syncio/rest.py` lines 176-185). -/
def Rest.delete_feed (transport : Transport) (project feed : String) :
    Except LawgError RespData × List HttpRequest :=
  let slugs := [("namespace", strArg project), ("feed", strArg feed)]
  Rest.request transport API_DELETE_FEED "DELETE"
    Option.none (Option.some ⟨slugs, FeedDeleteSlugSchema⟩) Option.none

/-- `Rest.create_log` (`lawg/syncio/rest.py` lines 189-213). -/
def Rest.create_log (transport : Transport) (project feed title : String)
    (description emoji : Option String) :
    Except LawgError RespData × List HttpRequest :=
  let slugs := [("namespace", strArg project), ("feed", strArg feed)]
  let data := [("title", strArg title), ("description", optStrArg description),
               ("emoji", optStrArg emoji)]
  Rest.request transport API_CREATE_LOG "POST"
    (Option.some ⟨data, LogCreateBodySchema⟩)
    (Option.some ⟨slugs, LogCreateSlugSchema⟩)
    (Option.some ⟨LogSchema, false⟩)

/-- `Rest.fetch_log` (`lawg/syncio/rest.py` lines 215-227). -/
def Rest.fetch_log (transport : Transport) (project feed log_id : String) :
    Except LawgError RespData × List HttpRequest :=
  let slugs := [("namespace", strArg project), ("feed", strArg feed),
                ("log_id", strArg log_id)]
  Rest.request transport API_GET_LOG "GET"
    Option.none (Option.some ⟨slugs, LogGetSlugSchema⟩)
    (Option.some ⟨LogSchema, false⟩)

/-- `Rest.fetch_logs` (`lawg/syncio/rest.py` lines 229-251): a GET that
nevertheless supplies a `limit`/`offset` body dict to `Rest.request`. -/
def Rest.fetch_logs (transport : Transport) (project feed : String)
    (limit offset : Option Int) :
    Except LawgError RespData × List HttpRequest :=
  let slugs := [("namespace", strArg project), ("feed", strArg feed)]
  let data := [("limit", optIntArg limit), ("offset", optIntArg offset)]
  Rest.request transport API_GET_LOGS "GET"
    (Option.some ⟨data, LogGetMultipleBodySchema⟩)
    (Option.some ⟨slugs, LogGetMultipleSlugSchema⟩)
    (Option.some ⟨LogSchema, true⟩)

/-- `Rest.edit_log` (`lawg/syncio/rest.py` lines 253-279); the three
optional fields default to the `UNDEFINED` sentinel in the source. -/
def Rest.edit_log (transport : Transport) (project feed log_id : String)
    (title description emoji : Arg) :
    Except LawgError RespData × List HttpRequest :=
  let slugs := [("namespace", strArg project), ("feed", strArg feed),
                ("log_id", strArg log_id)]
  let data := [("title", title), ("description", description), ("emoji", emoji)]
  Rest.request transport API_EDIT_LOG "PATCH"
    (Option.some ⟨data, LogPatchBodySchema⟩)
    (Option.some ⟨slugs, LogPatchSlugSchema⟩)
    (Option.some ⟨LogSchema, false⟩)

/-- `Rest.delete_log` (`lawg/syncio/rest.py` lines 281-291). -/
def Rest.delete_log (transport : Transport) (project feed log_id : String) :
    Except LawgError RespData × List HttpRequest :=
  let slugs := [("namespace", strArg project), ("feed", strArg feed),
                ("log_id", strArg log_id)]
  Rest.request transport API_DELETE_LOG "DELETE"
    Option.none (Option.some ⟨slugs, LogDeleteSlugSchema⟩) Option.none

/-- `Rest.create_insight` (`lawg/syncio/rest.py` lines 295-319). -/
def Rest.create_insight (transport : Transport) (project title : String)
    (description : Option String) (value : Option Int) (emoji : Option String) :
    Except LawgError RespData × List HttpRequest :=
  let slugs := [("namespace", strArg project)]
  let data := [("title", strArg title), ("description", optStrArg description),
               ("emoji", optStrArg emoji), ("value", optIntArg value)]
  Rest.request transport API_CREATE_INSIGHT "POST"
    (Option.some ⟨data, InsightCreateBodySchema⟩)
    (Option.some ⟨slugs, InsightCreateSlugSchema⟩)
    (Option.some ⟨InsightSchema, false⟩)

/-- `Rest.fetch_insight` (`lawg/syncio/rest.py` lines 321-336). -/
def Rest.fetch_insight (transport : Transport) (project insight_id : String) :
    Except LawgError RespData × List HttpRequest :=
  let slugs := [("namespace", strArg project), ("insight_id", strArg insight_id)]
  Rest.request transport API_GET_INSIGHTS "GET"
    Option.none (Option.some ⟨slugs, InsightGetSlugSchema⟩)
    (Option.some ⟨InsightSchema, false⟩)

/-- `Rest.fetch_insights` (`lawg/syncio/rest.py` lines 338-351). -/
def Rest.fetch_insights (transport : Transport) (project : String) :
    Except LawgError RespData × List HttpRequest :=
  let slugs := [("namespace", strArg project)]
  Rest.request transport API_GET_INSIGHTS "GET"
    Option.none (Option.some ⟨slugs, InsightGetMultipleBodySchema⟩)
    (Option.some ⟨InsightSchema, true⟩)

/-- `Rest.edit_insight` (`lawg/syncio/rest.py` lines 353-379); the four
optional fields default to the `UNDEFINED` sentinel in the source. -/
def Rest.edit_insight (transport : Transport) (project insight_id : String)
    (title description emoji value : Arg) :
    Except LawgError RespData × List HttpRequest :=
  let slugs := [("namespace", strArg project), ("insight_id", strArg insight_id)]
  let data := [("title", title), ("description", description), ("emoji", emoji),
               ("value", value)]
  Rest.request transport API_EDIT_INSIGHT "PATCH"
    (Option.some ⟨data, InsightPatchBodySchema⟩)
    (Option.some ⟨slugs, InsightPatchSlugSchema⟩)
    (Option.some ⟨InsightSchema, false⟩)

/-- `Rest.delete_insight` (`lawg/syncio/rest.py` lines 381-394). -/
def Rest.delete_insight (transport : Transport) (project insight_id : String) :
    Except LawgError RespData × List HttpRequest :=
  let slugs := [("namespace", strArg project), ("insight_id", strArg insight_id)]
  Rest.request transport API_DELETE_INSIGHT "DELETE"
    Option.none (Option.some ⟨slugs, InsightValueSchema⟩) Option.none

/-- `Client._create_project` (`lawg/syncio/client.py` lines 54-65): same
endpoint as `Rest.create_project` but validated by the shared
`ProjectBodySchema`. -/
def Client._create_project (transport : Transport)
    (project_namespace project_name : String) :
    Except LawgError RespData × List HttpRequest :=
  let body := [("namespace", strArg project_namespace), ("name", strArg project_name)]
  Rest.request transport API_CREATE_PROJECT "POST"
    (Option.some ⟨body, ProjectBodySchema⟩) Option.none
    (Option.some ⟨ProjectSchema, false⟩)

/-! The object-wrapper layer: stateful handles that delegate to the core
and track local deletion state (`lawg/syncio/project.py`,
`lawg/syncio/event.py`). -/

/-- The local state of a `Project` handle that `Project.delete` reads
and writes: its namespace slug and the `is_deleted` flag. -/
structure ProjectHandle where
  namespaceSlug : String
  is_deleted : Bool

/-- `Project.delete` (`lawg/syncio/project.py` lines 36-41): raise
`LawgAlreadyDeleted` if the handle is flagged deleted, else issue the
core project deletion and only then set `is_deleted`. The call reaches
the core through the missing base rest layer; modelled from the spec as
the core project delete (spec 6.4: the wrapper marks the object deleted
after a successful delete call). Returns the result, the updated handle,
and the trace of transport requests. -/
def Project.delete (transport : Transport) (h : ProjectHandle) :
    Except LawgError Unit × ProjectHandle × List HttpRequest :=
  if h.is_deleted then
    (Except.error (LawgError.alreadyDeleted "project"), h, [])
  else
    match Rest.delete_project transport h.namespaceSlug with
    | (Except.error e, reqs) => (Except.error e, h, reqs)
    | (Except.ok _, reqs) => (Except.ok (), { h with is_deleted := true }, reqs)

/-- The local state of an `Event` handle that `Event.delete` reads and
writes. -/
structure EventHandle where
  namespaceSlug : String
  feedSlug : String
  id : String
  is_deleted : Bool

/-- Modelled from the spec: the core event deletion referenced by
`Event.delete` (`self.client.rest.delete_event`) is absent from
`lawg/syncio/rest.py`; events are the log resource of spec 6, so the
operation is the slug-only log delete. -/
def Rest.delete_event (transport : Transport) (project feed event_id : String) :
    Except LawgError RespData × List HttpRequest :=
  Rest.delete_log transport project feed event_id

/-- `Event.delete` (`lawg/syncio/event.py` lines 36-41): raise
`LawgAlreadyDeletedError` if flagged deleted, else issue the core event
deletion and only then set `is_deleted`. -/
def Event.delete (transport : Transport) (h : EventHandle) :
    Except LawgError Unit × EventHandle × List HttpRequest :=
  if h.is_deleted then
    (Except.error (LawgError.alreadyDeleted "event"), h, [])
  else
    match Rest.delete_event transport h.namespaceSlug h.feedSlug h.id with
    | (Except.error e, reqs) => (Except.error e, h, reqs)
    | (Except.ok _, reqs) => (Except.ok (), { h with is_deleted := true }, reqs)

/-! The request-validation helpers of `lawg/base/client.py`, including
their runtime name resolution: a Python function body looks its free
names up in the module globals when it runs, and an unbound name raises
NameError before anything else in the function happens. -/

/-- The outcome of running one of the `_validate_*` helpers of
`lawg/base/client.py`. -/
inductive PyOutcome (α : Type) where
  | ok (a : α) : PyOutcome α
  | nameError (missing : String) : PyOutcome α
  | validationFail (e : ValErr) : PyOutcome α

/-- The schema objects bound in the module namespace of
`lawg/base/client.py` by its imports (lines 6-15): exactly
`APISuccessSchema`, `ProjectBodySchema`, `ProjectSchema`,
`FeedCreateBodySchema`, `FeedPatchBodySchema`, `FeedSchema`; the
`if TYPE_CHECKING:` imports bind nothing at runtime, the module defines
no further schema, and none of the names the helpers reference is a
Python builtin. `APISuccessSchema` is the envelope schema and is kept
out of this body-schema table; the helpers at issue never reference
it. -/
def baseClientSchemaGlobals : List (String × BodySchema) :=
  [("ProjectBodySchema", ProjectBodySchema), ("ProjectSchema", ProjectSchema),
   ("FeedCreateBodySchema", FeedCreateBodySchema),
   ("FeedPatchBodySchema", FeedPatchBodySchema), ("FeedSchema", FeedSchema)]

/-- `BaseClient._validate_create_request` (`lawg/base/client.py` lines
280-283): load `\x7b"name": project_name, "namespace":
project_namespace\x7d` through `ProjectBodySchema` and return the
normalized mapping (`ProjectBodySchema` is bound by the module's
imports). -/
def BaseClient._validate_create_request (project_namespace project_name : String) :
    Except ValErr StrDict :=
  ProjectBodySchema.load
    [("name", JVal.str project_name), ("namespace", JVal.str project_namespace)]

/-- `BaseClient._validate_fetch_request` (`lawg/base/client.py` lines
285-287): its first statement evaluates the global name
`ProjectGetSchema`; only if that resolves is the schema loaded on the
`namespace` mapping. -/
def BaseClient._validate_fetch_request (project_namespace : String) : PyOutcome Unit :=
  match baseClientSchemaGlobals.lookup "ProjectGetSchema" with
  | Option.none => PyOutcome.nameError "ProjectGetSchema"
  | Option.some schema =>
    match schema.load [("namespace", JVal.str project_namespace)] with
    | Except.error e => PyOutcome.validationFail e
    | Except.ok _ => PyOutcome.ok ()

/-- `BaseClient._validate_delete_request` is an alias of
`BaseClient._validate_fetch_request` (`lawg/base/client.py` line 290). -/
def BaseClient._validate_delete_request : String → PyOutcome Unit :=
  BaseClient._validate_fetch_request

/-- `BaseClient._validate_feed_delete_request` (`lawg/base/client.py`
lines 333-335): its first statement evaluates the global name
`FeedDeleteSchema`; only if that resolves is the schema loaded. -/
def BaseClient._validate_feed_delete_request
    (project_namespace feed_name : String) : PyOutcome Unit :=
  match baseClientSchemaGlobals.lookup "FeedDeleteSchema" with
  | Option.none => PyOutcome.nameError "FeedDeleteSchema"
  | Option.some schema =>
    match schema.load [("namespace", JVal.str project_namespace),
                       ("name", JVal.str feed_name)] with
    | Except.error e => PyOutcome.validationFail e
    | Except.ok _ => PyOutcome.ok ()

/-- The three patch states of spec 4.1, observed on the serialized body:
a sentinel argument leaves the field absent, a supplied value (null
included) appears verbatim, and every serialized field traces back to a
supplied (non-sentinel) argument. -/
def patchFieldOk (data : List (String × Arg)) (body : StrDict) (k : String) : Prop :=
  (data.lookup k = Option.some Arg.undef → body.lookup k = Option.none) ∧
  (∀ v, data.lookup k = Option.some (Arg.val v) → body.lookup k = Option.some v) ∧
  (∀ v, body.lookup k = Option.some v → data.lookup k = Option.some (Arg.val v))

/-- A call to an edit operation issued exactly one request whose body
realizes the patch semantics of spec 4.1 for every field name. -/
def EditIssuesPatchBody (call : Except LawgError RespData × List HttpRequest)
    (data : List (String × Arg)) : Prop :=
  ∃ req body, call.2 = [req] ∧ req.body = Option.some body ∧
    ∀ k, patchFieldOk data body k

/-- The string one template segment contributes to the rendered URL. -/
def segRender (slugs : List (String × String)) : Seg → String
  | Seg.lit s => s
  | Seg.slot n => percentEscape ((slugs.lookup n).getD "")

/-- The fully rendered form of a template under a slug mapping: each
literal verbatim, each placeholder replaced (exactly once, in place) by
the percent-escaped slug value. -/
def renderAll (slugs : List (String × String)) : UrlTemplate → String
  | [] => ""
  | seg :: rest => segRender slugs seg ++ renderAll slugs rest

/-- The opening curly-brace character. -/
def lbrace : Char := Char.ofNat 123

/-- The closing curly-brace character. -/
def rbrace : Char := Char.ofNat 125

/-- The canonical success envelope around a payload (spec 3, 6). -/
def envelope (payload : JVal) : JVal :=
  JVal.obj [("success", JVal.bool true), ("data", payload)]

/-- A spy transport that answers every request with a fixed successful
empty envelope; used to observe traces on concrete inputs. -/
def blankTransport : Transport :=
  fun _ => Except.ok ⟨200, JVal.obj [("success", JVal.bool true)]⟩

/-- A spy transport answering with a fixed successful project record. -/
def projectTransport : Transport :=
  fun _ => Except.ok ⟨200, envelope (JVal.obj
    [("id", JVal.str "1"), ("namespace", JVal.str "test"),
     ("name", JVal.str "test")])⟩

/-- A spy transport answering every request with a successful empty-list
payload. -/
def listTransport : Transport :=
  fun _ => Except.ok ⟨200, envelope (JVal.arr [])⟩

/-- A complete, valid log entity record. -/
def sampleLogRecord : StrDict :=
  [("id", JVal.str "1"), ("project_id", JVal.str "p"),
   ("feed_id", JVal.str "f"), ("title", JVal.str "t")]

/-- A spy transport that fails every request at the network level. -/
def downTransport : Transport :=
  fun _ => Except.error "connection refused"

/-! Shared lemmas about the embedded core. -/

/-- An optional nullable field accepts every value. -/
theorem fieldOk_optional (f : FieldSpec) (hreq : f.required = false)
    (hnul : f.nullable = true) (v : JVal) : fieldOk f v = true := by
  cases v <;> simp [fieldOk, hreq, hnul]

/-- A required field holding a string is valid exactly when the string
is non-empty. -/
theorem fieldOk_required_str (n : String) (b : Bool) (s : String) :
    fieldOk ⟨n, true, b⟩ (JVal.str s) = !s.isEmpty := by
  simp [fieldOk]

/-- The empty string is empty (reduction helper). -/
theorem empty_string_isEmpty : "".isEmpty = true := rfl

/-- Schema validation is normalization-free: a successful load returns
the input mapping itself. -/
theorem BodySchema.load_ok_eq {s : BodySchema} {d d' : StrDict}
    (h : s.load d = Except.ok d') : d' = d := by
  unfold BodySchema.load at h
  rcases hu : d.find? (fun kv => !(s.fields.any (fun f => f.name == kv.1))) with _ | kv
  · rw [hu] at h
    rcases hr : s.fields.find? (fun f =>
        match d.lookup f.name with
        | Option.none => f.required
        | Option.some v => !fieldOk f v) with _ | f
    · rw [hr] at h
      cases h
      rfl
    · rw [hr] at h
      cases h
  · rw [hu] at h
    cases h

/-- When request preparation succeeds, `Rest.request` hands exactly the
prepared descriptor to the transport, once. -/
theorem request_trace_ok {tr : Transport} {url : UrlTemplate} {m : String}
    {bws sws : Option DataWithSchema} {rs : Option ResponseSchema}
    {u : String} {b : Option StrDict}
    (h : prepare_request url bws sws = Except.ok (u, b)) :
    (Rest.request tr url m bws sws rs).2 = [⟨m, u, b⟩] := by
  unfold Rest.request
  rw [h]
  rcases htr : tr ⟨m, u, b⟩ with msg | resp <;> simp [htr]

/-- When request preparation succeeds and the transport answers, the
call's result is the prepared response of that answer. -/
theorem request_result_ok {tr : Transport} {url : UrlTemplate} {m : String}
    {bws sws : Option DataWithSchema} {rs : Option ResponseSchema}
    {u : String} {b : Option StrDict} {resp : HttpResponse}
    (h : prepare_request url bws sws = Except.ok (u, b))
    (htr : tr ⟨m, u, b⟩ = Except.ok resp) :
    (Rest.request tr url m bws sws rs).1 = prepare_response resp rs := by
  unfold Rest.request
  rw [h]
  simp [htr]

/-- When request preparation fails, `Rest.request` surfaces the
validation error and the transport is never called. -/
theorem request_validation_fail {tr : Transport} {url : UrlTemplate} {m : String}
    {bws sws : Option DataWithSchema} {rs : Option ResponseSchema} {e : ValErr}
    (h : prepare_request url bws sws = Except.error e) :
    Rest.request tr url m bws sws rs = (Except.error (LawgError.validation e), []) := by
  unfold Rest.request
  rw [h]

/-- Looking a key up in a sentinel-filtered dict yields nothing when the
key is absent from the raw dict. -/
theorem filterUndefined_lookup_none {data : List (String × Arg)} {k : String}
    (h : k ∉ data.map Prod.fst) : (filterUndefined data).lookup k = Option.none := by
  induction data with
  | nil => rfl
  | cons kv rest ih =>
    simp only [List.map_cons, List.mem_cons] at h
    push_neg at h
    rcases kv with ⟨k0, a0⟩
    rcases a0 with _ | v0
    · simpa [filterUndefined] using ih h.2
    · have hne : (k == k0) = false := by
        simp [h.1]
      simp [filterUndefined, List.lookup, hne]
      simpa [filterUndefined] using ih h.2

/-- Sentinel filtering realizes the three patch states of spec 4.1 at
every key, for dicts without duplicate keys. -/
theorem patchFieldOk_filterUndefined (data : List (String × Arg))
    (hnd : (data.map Prod.fst).Nodup) (k : String) :
    patchFieldOk data (filterUndefined data) k := by
  unfold patchFieldOk
  induction data with
  | nil => exact ⟨(fun h => nomatch h), (fun _ h => nomatch h), (fun _ h => nomatch h)⟩
  | cons kv rest ih =>
    rcases kv with ⟨k0, a0⟩
    simp only [List.map_cons, List.nodup_cons] at hnd
    by_cases hk : k = k0
    · subst hk
      rcases a0 with _ | v0
      · refine ⟨fun _ => ?_, fun v h => ?_, fun v h => ?_⟩
        · simpa [filterUndefined] using filterUndefined_lookup_none hnd.1
        · simp [List.lookup] at h
        · rw [show filterUndefined ((k, Arg.undef) :: rest) = filterUndefined rest from rfl,
              filterUndefined_lookup_none hnd.1] at h
          cases h
      · refine ⟨fun h => ?_, fun v h => ?_, fun v h => ?_⟩
        · simp [List.lookup] at h
        · simp [List.lookup] at h
          subst h
          simp [filterUndefined, List.lookup]
        · simp [filterUndefined, List.lookup] at h
          subst h
          simp [List.lookup]
    · have hne : (k == k0) = false := by simp [hk]
      have hrest := ih hnd.2
      rcases a0 with _ | v0
      · refine ⟨fun h => ?_, fun v h => ?_, fun v h => ?_⟩
        · exact hrest.1 (by simpa [List.lookup, hne] using h)
        · exact (by simpa [filterUndefined] using hrest.2.1 v (by simpa [List.lookup, hne] using h) :
            (filterUndefined ((k0, Arg.undef) :: rest)).lookup k = Option.some v)
        · have := hrest.2.2 v (by simpa [filterUndefined] using h)
          simpa [List.lookup, hne] using this
      · refine ⟨fun h => ?_, fun v h => ?_, fun v h => ?_⟩
        · have := hrest.1 (by simpa [List.lookup, hne] using h)
          simpa [filterUndefined, List.lookup, hne] using this
        · have := hrest.2.1 v (by simpa [List.lookup, hne] using h)
          simpa [filterUndefined, List.lookup, hne] using this
        · have := hrest.2.2 v (by simpa [filterUndefined, List.lookup, hne] using h)
          simpa [List.lookup, hne] using this

/-- Every key of a sentinel-filtered dict is a key of the raw dict. -/
theorem filterUndefined_keys_sub {data : List (String × Arg)} {kv : String × JVal}
    (h : kv ∈ filterUndefined data) : kv.1 ∈ data.map Prod.fst := by
  induction data with
  | nil => cases h
  | cons hd rest ih =>
    rcases hd with ⟨k0, a0⟩
    rcases a0 with _ | v0
    · exact List.mem_cons_of_mem k0 (ih h)
    · rcases List.mem_cons.mp h with h0 | h1
      · subst h0
        exact List.mem_cons_self _ _
      · exact List.mem_cons_of_mem k0 (ih h1)

/-- A schema all of whose fields are optional and nullable accepts any
dict over its declared keys, unchanged. -/
theorem load_allOptional (s : BodySchema)
    (hopt : ∀ f ∈ s.fields, f.required = false ∧ f.nullable = true)
    (d : StrDict) (hkeys : ∀ kv ∈ d, s.fields.any (fun f => f.name == kv.1) = true) :
    s.load d = Except.ok d := by
  unfold BodySchema.load
  have h1 : d.find? (fun kv => !(s.fields.any (fun f => f.name == kv.1))) = Option.none := by
    apply List.find?_eq_none.mpr
    intro kv hkv
    simp [hkeys kv hkv]
  rw [h1]
  have h2 : s.fields.find? (fun f =>
      match d.lookup f.name with
      | Option.none => f.required
      | Option.some v => !fieldOk f v) = Option.none := by
    apply List.find?_eq_none.mpr
    intro f hf
    rcases hopt f hf with ⟨hreq, hnul⟩
    rcases hl : d.lookup f.name with _ | v
    · simp [hl, hreq]
    · simp [hl, fieldOk_optional f hreq hnul v]
  rw [h2]

/-- An edit-style `Rest.request` call whose body schema is all-optional
issues exactly one request whose body is the sentinel-filtered data,
realizing the patch semantics at every key. -/
theorem edit_request_patch (tr : Transport) (url : UrlTemplate) (m : String)
    (data : List (String × Arg)) (bs : BodySchema) (sws : DataWithSchema)
    (rs : Option ResponseSchema)
    (hopt : ∀ fl ∈ bs.fields, fl.required = false ∧ fl.nullable = true)
    (hkeys : ∀ k ∈ data.map Prod.fst, bs.fields.any (fun fl => fl.name == k) = true)
    (hnd : (data.map Prod.fst).Nodup)
    (hslug : sws.schema.load (filterUndefined sws.data) =
      Except.ok (filterUndefined sws.data))
    (hrender : (renderTemplate url (slugStrings (filterUndefined sws.data))).isSome) :
    EditIssuesPatchBody
      (Rest.request tr url m (Option.some ⟨data, bs⟩) (Option.some sws) rs) data := by
  have hload : bs.load (filterUndefined data) = Except.ok (filterUndefined data) :=
    load_allOptional bs hopt (filterUndefined data)
      (fun kv hkv => hkeys kv.1 (filterUndefined_keys_sub hkv))
  rcases Option.isSome_iff_exists.mp hrender with ⟨u, hu⟩
  have hprep : prepare_request url (Option.some ⟨data, bs⟩) (Option.some sws) =
      Except.ok (u, Option.some (filterUndefined data)) := by
    unfold prepare_request prepare_slugs
    simp only [hslug, hu, hload]
  exact ⟨⟨m, u, Option.some (filterUndefined data)⟩, filterUndefined data,
    request_trace_ok hprep, rfl, patchFieldOk_filterUndefined data hnd⟩

/-- C1: for every edit operation (`edit_feed`, `edit_log`,
`edit_insight`) and every optional field, a field whose argument is the
`UNDEFINED` sentinel is absent from the serialized request body, a field
explicitly passed as null is present in the body with value null, and
every field present in the body comes from a non-sentinel argument (the
sentinel is never serialized). -/
theorem claim1_edit_sentinel_vs_null (tr : Transport) (p f lid iid : String)
    (hp : p.isEmpty = false) (hf : f.isEmpty = false)
    (hl : lid.isEmpty = false) (hi : iid.isEmpty = false)
    (a b c d : Arg) :
    EditIssuesPatchBody (Rest.edit_feed tr p f a b c)
      [("name", a), ("description", b), ("emoji", c)] ∧
    EditIssuesPatchBody (Rest.edit_log tr p f lid a b c)
      [("title", a), ("description", b), ("emoji", c)] ∧
    EditIssuesPatchBody (Rest.edit_insight tr p iid a b c d)
      [("title", a), ("description", b), ("emoji", c), ("value", d)] := by
  refine ⟨?_, ?_, ?_⟩
  · refine edit_request_patch tr API_EDIT_FEED "PATCH"
      [("name", a), ("description", b), ("emoji", c)] FeedPatchBodySchema
      ⟨[("namespace", strArg p), ("feed", strArg f)], FeedPatchSlugSchema⟩
      (Option.some ⟨FeedSchema, false⟩) (by decide) ?_ ?_ ?_ ?_
    · intro k hk
      simp at hk
      rcases hk with rfl | rfl | rfl <;> rfl
    · show (["name", "description", "emoji"] : List String).Nodup
      decide
    · simp [BodySchema.load, filterUndefined, strArg, FeedPatchSlugSchema, fieldOk,
            List.lookup, hp, hf]
    · simp [renderTemplate, filterUndefined, strArg, slugStrings, API_EDIT_FEED,
            List.lookup]
  · refine edit_request_patch tr API_EDIT_LOG "PATCH"
      [("title", a), ("description", b), ("emoji", c)] LogPatchBodySchema
      ⟨[("namespace", strArg p), ("feed", strArg f), ("log_id", strArg lid)],
        LogPatchSlugSchema⟩
      (Option.some ⟨LogSchema, false⟩) (by decide) ?_ ?_ ?_ ?_
    · intro k hk
      simp at hk
      rcases hk with rfl | rfl | rfl <;> rfl
    · show (["title", "description", "emoji"] : List String).Nodup
      decide
    · simp [BodySchema.load, filterUndefined, strArg, LogPatchSlugSchema, LogGetSlugSchema,
            fieldOk, List.lookup, hp, hf, hl]
    · simp [renderTemplate, filterUndefined, strArg, slugStrings, API_EDIT_LOG, API_GET_LOG,
            List.lookup]
  · refine edit_request_patch tr API_EDIT_INSIGHT "PATCH"
      [("title", a), ("description", b), ("emoji", c), ("value", d)] InsightPatchBodySchema
      ⟨[("namespace", strArg p), ("insight_id", strArg iid)], InsightPatchSlugSchema⟩
      (Option.some ⟨InsightSchema, false⟩) (by decide) ?_ ?_ ?_ ?_
    · intro k hk
      simp at hk
      rcases hk with rfl | rfl | rfl | rfl <;> rfl
    · show (["title", "description", "emoji", "value"] : List String).Nodup
      decide
    · simp [BodySchema.load, filterUndefined, strArg, InsightPatchSlugSchema,
            InsightGetSlugSchema, fieldOk, List.lookup, hp, hi]
    · simp [renderTemplate, filterUndefined, strArg, slugStrings, API_EDIT_INSIGHT,
            List.lookup]

/-- Witness for C1 at concrete inputs: `edit_feed` called with the
sentinel for `name` and `emoji` and explicit null for `description`. -/
theorem claim1_edit_sentinel_vs_null_witness :
    EditIssuesPatchBody
      (Rest.edit_feed blankTransport "test" "news" Arg.undef Arg.none Arg.undef)
      [("name", Arg.undef), ("description", Arg.none), ("emoji", Arg.undef)] ∧
    EditIssuesPatchBody
      (Rest.edit_log blankTransport "test" "news" "1" Arg.undef Arg.none Arg.undef)
      [("title", Arg.undef), ("description", Arg.none), ("emoji", Arg.undef)] ∧
    EditIssuesPatchBody
      (Rest.edit_insight blankTransport "test" "2" Arg.undef Arg.none Arg.undef Arg.undef)
      [("title", Arg.undef), ("description", Arg.none), ("emoji", Arg.undef),
       ("value", Arg.undef)] :=
  claim1_edit_sentinel_vs_null blankTransport "test" "news" "1" "2"
    rfl rfl rfl rfl Arg.undef Arg.none Arg.undef Arg.undef

/-- C2: for every create operation, a missing or empty required body
field (`name` for project and feed creation, `title` for log and insight
creation) makes the call fail with a `ValidationError` and an empty
transport trace: zero network requests occur on validation failure. The
second conjunct covers the field being absent from the body dict
altogether. -/
theorem claim2_create_validation_no_network (tr : Transport) (p f : String)
    (desc emoji : Option String) (value : Option Int) :
    (∃ e, Rest.create_project tr p "" = (Except.error (LawgError.validation e), [])) ∧
    (∃ e, Rest.request tr API_CREATE_PROJECT "POST"
        (Option.some ⟨[("namespace", strArg p)], ProjectCreateBodySchema⟩)
        Option.none (Option.some ⟨ProjectSchema, false⟩) =
        (Except.error (LawgError.validation e), [])) ∧
    (∃ e, Rest.create_feed tr p "" desc emoji =
        (Except.error (LawgError.validation e), [])) ∧
    (∃ e, Rest.create_log tr p f "" desc emoji =
        (Except.error (LawgError.validation e), [])) ∧
    (∃ e, Rest.create_insight tr p "" desc value emoji =
        (Except.error (LawgError.validation e), [])) := by
  refine ⟨?_, ?_, ?_, ?_, ?_⟩
  · cases hp : p.isEmpty with
    | true =>
      exact ⟨⟨"namespace", "invalid field"⟩, request_validation_fail (by
        simp [prepare_request, prepare_slugs, BodySchema.load, filterUndefined, strArg,
              ProjectCreateBodySchema, fieldOk_required_str, empty_string_isEmpty, List.find?, List.lookup,
              renderTemplate, API_CREATE_PROJECT, hp])⟩
    | false =>
      exact ⟨⟨"name", "invalid field"⟩, request_validation_fail (by
        simp [prepare_request, prepare_slugs, BodySchema.load, filterUndefined, strArg,
              ProjectCreateBodySchema, fieldOk_required_str, empty_string_isEmpty, List.find?, List.lookup,
              renderTemplate, API_CREATE_PROJECT, hp])⟩
  · cases hp : p.isEmpty with
    | true =>
      exact ⟨⟨"namespace", "invalid field"⟩, request_validation_fail (by
        simp [prepare_request, prepare_slugs, BodySchema.load, filterUndefined, strArg,
              ProjectCreateBodySchema, fieldOk_required_str, empty_string_isEmpty, List.find?, List.lookup,
              renderTemplate, API_CREATE_PROJECT, hp])⟩
    | false =>
      exact ⟨⟨"name", "invalid field"⟩, request_validation_fail (by
        simp [prepare_request, prepare_slugs, BodySchema.load, filterUndefined, strArg,
              ProjectCreateBodySchema, fieldOk_required_str, empty_string_isEmpty, List.find?, List.lookup,
              renderTemplate, API_CREATE_PROJECT, hp])⟩
  · cases hp : p.isEmpty with
    | true =>
      exact ⟨⟨"namespace", "invalid field"⟩, request_validation_fail (by
        simp [prepare_request, prepare_slugs, BodySchema.load, filterUndefined, strArg, optStrArg,
              FeedCreateBodySchema, FeedCreateSlugSchema, fieldOk_required_str, empty_string_isEmpty, List.find?,
              fieldOk_optional, List.lookup, renderTemplate, API_CREATE_FEED, hp])⟩
    | false =>
      exact ⟨⟨"name", "invalid field"⟩, request_validation_fail (by
        simp [prepare_request, prepare_slugs, BodySchema.load, filterUndefined, strArg, optStrArg,
              FeedCreateBodySchema, FeedCreateSlugSchema, fieldOk_required_str, empty_string_isEmpty, List.find?,
              fieldOk_optional, List.lookup, renderTemplate, API_CREATE_FEED, hp])⟩
  · cases hp : p.isEmpty with
    | true =>
      exact ⟨⟨"namespace", "invalid field"⟩, request_validation_fail (by
        simp [prepare_request, prepare_slugs, BodySchema.load, filterUndefined, strArg, optStrArg,
              LogCreateBodySchema, LogCreateSlugSchema, fieldOk_required_str, empty_string_isEmpty, List.find?,
              fieldOk_optional, List.lookup, renderTemplate, API_CREATE_LOG, hp])⟩
    | false =>
      cases hf : f.isEmpty with
      | true =>
        exact ⟨⟨"feed", "invalid field"⟩, request_validation_fail (by
          simp [prepare_request, prepare_slugs, BodySchema.load, filterUndefined, strArg, optStrArg,
                LogCreateBodySchema, LogCreateSlugSchema, fieldOk_required_str, empty_string_isEmpty, List.find?,
                fieldOk_optional, List.lookup, renderTemplate, API_CREATE_LOG, hp, hf])⟩
      | false =>
        exact ⟨⟨"title", "invalid field"⟩, request_validation_fail (by
          simp [prepare_request, prepare_slugs, BodySchema.load, filterUndefined, strArg, optStrArg,
                LogCreateBodySchema, LogCreateSlugSchema, fieldOk_required_str, empty_string_isEmpty, List.find?,
                fieldOk_optional, List.lookup, renderTemplate, API_CREATE_LOG, hp, hf])⟩
  · cases hp : p.isEmpty with
    | true =>
      exact ⟨⟨"namespace", "invalid field"⟩, request_validation_fail (by
        simp [prepare_request, prepare_slugs, BodySchema.load, filterUndefined, strArg, optStrArg,
              optIntArg, InsightCreateBodySchema, InsightCreateSlugSchema,
              fieldOk_required_str, empty_string_isEmpty, List.find?, fieldOk_optional, List.lookup, renderTemplate,
              API_CREATE_INSIGHT, hp])⟩
    | false =>
      exact ⟨⟨"title", "invalid field"⟩, request_validation_fail (by
        simp [prepare_request, prepare_slugs, BodySchema.load, filterUndefined, strArg, optStrArg,
              optIntArg, InsightCreateBodySchema, InsightCreateSlugSchema,
              fieldOk_required_str, empty_string_isEmpty, List.find?, fieldOk_optional, List.lookup, renderTemplate,
              API_CREATE_INSIGHT, hp])⟩

/-- A request prepared without body data carries no body. -/
theorem prepare_request_no_body {url : UrlTemplate} {sws : Option DataWithSchema}
    {u : String} {b : Option StrDict}
    (h : prepare_request url Option.none sws = Except.ok (u, b)) : b = Option.none := by
  unfold prepare_request at h
  rcases hs : prepare_slugs url sws with e | u'
  · rw [hs] at h
    cases h
  · rw [hs] at h
    cases h
    rfl

/-- C3 counterexample: `fetch_logs` performs a GET, yet its constructed
request descriptor carries a JSON body (the validated limit/offset
mapping), refuting the claim that every GET/DELETE operation carries no
JSON body at all. -/
theorem claim3_counterexample_fetch_logs_get_body :
    (Rest.fetch_logs blankTransport "test" "news" (Option.some 5) (Option.some 0)).2 =
      [⟨"GET", "/projects/test/feeds/news/logs",
        Option.some [("limit", JVal.num 5), ("offset", JVal.num 0)]⟩] ∧
    Option.some [("limit", JVal.num 5), ("offset", JVal.num 0)] ≠
      (Option.none : Option StrDict) := by
  constructor
  · rfl
  · simp

/-- C3 (amended): body presence in the request descriptor is determined
by whether the operation supplies body data, not by the HTTP method: a
call with no body data (every GET/DELETE operation except `fetch_logs`,
e.g. `delete_feed`) carries no JSON body, a call with body data carries
the validated mapping as its JSON body, and `fetch_logs` — a GET — does
carry its validated limit/offset mapping as a body. -/
theorem claim3_amended_body_follows_data (tr : Transport) (url : UrlTemplate)
    (m : String) (sws : Option DataWithSchema) (rs : Option ResponseSchema)
    (p f : String) (hp : p.isEmpty = false) (hf : f.isEmpty = false)
    (limit offset : Option Int) :
    (∀ req ∈ (Rest.request tr url m Option.none sws rs).2, req.body = Option.none) ∧
    (∀ bws u b, prepare_request url (Option.some bws) sws = Except.ok (u, b) →
      ∃ bd, b = Option.some bd ∧
        bws.schema.load (filterUndefined bws.data) = Except.ok bd) ∧
    (∃ u, (Rest.delete_feed tr p f).2 = [⟨"DELETE", u, Option.none⟩]) ∧
    (∃ u, (Rest.fetch_logs tr p f limit offset).2 =
      [⟨"GET", u, Option.some [("limit", optInt limit), ("offset", optInt offset)]⟩]) := by
  refine ⟨?_, ?_, ?_, ?_⟩
  · intro req hreq
    rcases hpr : prepare_request url Option.none sws with e | ⟨u, b⟩
    · have h2 : (Rest.request tr url m Option.none sws rs).2 = [] := by
        rw [request_validation_fail hpr]
      rw [h2] at hreq
      cases hreq
    · have hb := prepare_request_no_body hpr
      subst hb
      rw [request_trace_ok hpr] at hreq
      rcases List.mem_singleton.mp hreq with rfl
      rfl
  · intro bws u b h
    unfold prepare_request at h
    rcases hs : prepare_slugs url sws with e | u'
    · rw [hs] at h
      cases h
    · rcases hl : bws.schema.load (filterUndefined bws.data) with e | bd
      · simp only [hs, hl] at h
        exact Except.noConfusion h
      · simp only [hs, hl, Except.ok.injEq, Prod.mk.injEq] at h
        exact ⟨bd, h.2.symm, rfl⟩
  · refine ⟨"/projects/" ++ (percentEscape p ++ ("/feeds/" ++ percentEscape f)), ?_⟩
    have hprep : prepare_request API_DELETE_FEED Option.none
        (Option.some ⟨[("namespace", strArg p), ("feed", strArg f)], FeedDeleteSlugSchema⟩) =
        Except.ok ("/projects/" ++ (percentEscape p ++ ("/feeds/" ++ percentEscape f)),
          Option.none) := by
      simp [prepare_request, prepare_slugs, BodySchema.load, filterUndefined, strArg,
            FeedDeleteSlugSchema, FeedPatchSlugSchema, fieldOk, List.lookup,
            renderTemplate, API_DELETE_FEED, API_EDIT_FEED, slugStrings, hp, hf]
    exact request_trace_ok hprep
  · refine ⟨"/projects/" ++ (percentEscape p ++ ("/feeds/" ++ (percentEscape f ++ "/logs"))), ?_⟩
    have hprep : prepare_request API_GET_LOGS
        (Option.some ⟨[("limit", optIntArg limit), ("offset", optIntArg offset)],
          LogGetMultipleBodySchema⟩)
        (Option.some ⟨[("namespace", strArg p), ("feed", strArg f)],
          LogGetMultipleSlugSchema⟩) =
        Except.ok ("/projects/" ++ (percentEscape p ++ ("/feeds/" ++ (percentEscape f ++ "/logs"))),
          Option.some [("limit", optInt limit), ("offset", optInt offset)]) := by
      simp [prepare_request, prepare_slugs, BodySchema.load, filterUndefined, strArg,
            optIntArg, LogGetMultipleBodySchema, LogGetMultipleSlugSchema,
            LogCreateSlugSchema, fieldOk_required_str, fieldOk_optional, List.lookup, List.find?,
            renderTemplate, API_GET_LOGS, API_CREATE_LOG, slugStrings, hp, hf]
    exact request_trace_ok hprep

/-- Witness for the amended C3 at concrete inputs. -/
theorem claim3_amended_body_follows_data_witness :
    (∀ req ∈ (Rest.request blankTransport [] "GET" Option.none Option.none
        Option.none).2, req.body = Option.none) ∧
    (∀ bws u b, prepare_request [] (Option.some bws) Option.none = Except.ok (u, b) →
      ∃ bd, b = Option.some bd ∧
        bws.schema.load (filterUndefined bws.data) = Except.ok bd) ∧
    (∃ u, (Rest.delete_feed blankTransport "test" "news").2 =
      [⟨"DELETE", u, Option.none⟩]) ∧
    (∃ u, (Rest.fetch_logs blankTransport "test" "news" (Option.some 5)
        (Option.some 0)).2 =
      [⟨"GET", u, Option.some [("limit", optInt (Option.some 5)),
        ("offset", optInt (Option.some 0))]⟩]) :=
  claim3_amended_body_follows_data blankTransport [] "GET" Option.none Option.none
    "test" "news" rfl rfl (Option.some 5) (Option.some 0)

/-- A failing element fails the whole list validation. -/
theorem loadEntities_mem_error {es : BodySchema} {xs : List JVal} {x : JVal} {ex : ValErr}
    (hx : x ∈ xs) (he : loadEntity es x = Except.error ex) :
    ∃ e, loadEntities es xs = Except.error e := by
  induction xs with
  | nil => cases hx
  | cons y ys ih =>
    rcases List.mem_cons.mp hx with rfl | hmem
    · exact ⟨ex, by simp [loadEntities, he]⟩
    · rcases hy : loadEntity es y with e | d
      · exact ⟨e, by simp [loadEntities, hy]⟩
      · rcases ih hmem with ⟨e, hys⟩
        exact ⟨e, by simp [loadEntities, hy, hys]⟩

/-- The prepared request of `fetch_logs` on non-empty slugs. -/
theorem fetch_logs_prep (p f : String) (hp : p.isEmpty = false) (hf : f.isEmpty = false)
    (limit offset : Option Int) :
    prepare_request API_GET_LOGS
      (Option.some ⟨[("limit", optIntArg limit), ("offset", optIntArg offset)],
        LogGetMultipleBodySchema⟩)
      (Option.some ⟨[("namespace", strArg p), ("feed", strArg f)],
        LogGetMultipleSlugSchema⟩) =
      Except.ok ("/projects/" ++ (percentEscape p ++ ("/feeds/" ++ (percentEscape f ++ "/logs"))),
        Option.some [("limit", optInt limit), ("offset", optInt offset)]) := by
  simp [prepare_request, prepare_slugs, BodySchema.load, filterUndefined, strArg,
        optIntArg, LogGetMultipleBodySchema, LogGetMultipleSlugSchema,
        LogCreateSlugSchema, fieldOk_required_str, fieldOk_optional, List.lookup,
        List.find?, renderTemplate, API_GET_LOGS, API_CREATE_LOG, slugStrings, hp, hf]

/-- The prepared request of `fetch_insights` on a non-empty namespace. -/
theorem fetch_insights_prep (p : String) (hp : p.isEmpty = false) :
    prepare_request API_GET_INSIGHTS Option.none
      (Option.some ⟨[("namespace", strArg p)], InsightGetMultipleBodySchema⟩) =
      Except.ok ("/projects/" ++ (percentEscape p ++ "/insights"), Option.none) := by
  simp [prepare_request, prepare_slugs, BodySchema.load, filterUndefined, strArg,
        InsightGetMultipleBodySchema, InsightCreateSlugSchema, fieldOk_required_str,
        List.lookup, List.find?, renderTemplate, API_GET_INSIGHTS, API_CREATE_INSIGHT,
        slugStrings, hp]

/-- C4: for a fetch-many operation with a 2xx response, a data payload
that is not a list fails response validation even when it would validate
as a single record, and any element of a list payload failing its entity
schema fails the whole call (no partial results); `fetch_logs` and
`fetch_insights` route their responses through exactly this many-mode
validation. -/
theorem claim4_fetch_many_list_validation :
    (∀ (es : BodySchema) (status : Nat), 200 ≤ status → status < 300 →
      ∀ payload d', (∀ xs, payload ≠ JVal.arr xs) →
      loadEntity es payload = Except.ok d' →
      prepare_response ⟨status, envelope payload⟩ (Option.some ⟨es, true⟩) =
        Except.error (LawgError.validation ⟨"data", "not a list"⟩)) ∧
    (∀ (es : BodySchema) (status : Nat), 200 ≤ status → status < 300 →
      ∀ xs x ex, x ∈ xs → loadEntity es x = Except.error ex →
      ∃ e, prepare_response ⟨status, envelope (JVal.arr xs)⟩ (Option.some ⟨es, true⟩) =
        Except.error (LawgError.validation e)) ∧
    (∀ (tr : Transport) (p f : String) (limit offset : Option Int) resp,
      (∀ q, tr q = Except.ok resp) → p.isEmpty = false → f.isEmpty = false →
      (Rest.fetch_logs tr p f limit offset).1 =
        prepare_response resp (Option.some ⟨LogSchema, true⟩)) ∧
    (∀ (tr : Transport) (p : String) resp,
      (∀ q, tr q = Except.ok resp) → p.isEmpty = false →
      (Rest.fetch_insights tr p).1 =
        prepare_response resp (Option.some ⟨InsightSchema, true⟩)) := by
  refine ⟨?_, ?_, ?_, ?_⟩
  · intro es status h1 h2 payload d' hnl hone
    have hst : (status < 200 || 300 ≤ status) = false := by
      simp
      omega
    cases payload with
    | arr xs => exact absurd rfl (hnl xs)
    | null => simp [prepare_response, hst, envelope, List.lookup]
    | bool b => simp [prepare_response, hst, envelope, List.lookup]
    | str s => simp [prepare_response, hst, envelope, List.lookup]
    | num n => simp [prepare_response, hst, envelope, List.lookup]
    | obj kvs => simp [prepare_response, hst, envelope, List.lookup]
  · intro es status h1 h2 xs x ex hx he
    have hst : (status < 200 || 300 ≤ status) = false := by
      simp
      omega
    rcases loadEntities_mem_error hx he with ⟨e, hes⟩
    exact ⟨e, by simp [prepare_response, hst, envelope, List.lookup, hes]⟩
  · intro tr p f limit offset resp hresp hp hf
    exact request_result_ok (fetch_logs_prep p f hp hf limit offset) (hresp _)
  · intro tr p resp hresp hp
    exact request_result_ok (fetch_insights_prep p hp) (hresp _)

/-- Witness for C4 at concrete inputs: a single valid record as
payload, a list with an invalid element, and the two fetch-many
operations against a list-returning transport. -/
theorem claim4_fetch_many_list_validation_witness :
    prepare_response ⟨200, envelope (JVal.obj sampleLogRecord)⟩
      (Option.some ⟨LogSchema, true⟩) =
      Except.error (LawgError.validation ⟨"data", "not a list"⟩) ∧
    (∃ e, prepare_response ⟨200, envelope (JVal.arr [JVal.null])⟩
      (Option.some ⟨LogSchema, true⟩) = Except.error (LawgError.validation e)) ∧
    (Rest.fetch_logs listTransport "test" "news" Option.none Option.none).1 =
      prepare_response ⟨200, envelope (JVal.arr [])⟩ (Option.some ⟨LogSchema, true⟩) ∧
    (Rest.fetch_insights listTransport "test").1 =
      prepare_response ⟨200, envelope (JVal.arr [])⟩ (Option.some ⟨InsightSchema, true⟩) :=
  ⟨claim4_fetch_many_list_validation.1 LogSchema 200 (by decide) (by decide) (JVal.obj sampleLogRecord)
      sampleLogRecord (fun xs h => JVal.noConfusion h) rfl,
   claim4_fetch_many_list_validation.2.1 LogSchema 200 (by decide) (by decide) [JVal.null] JVal.null
      ⟨"data", "record is not an object"⟩ (List.mem_singleton.mpr rfl) rfl,
   claim4_fetch_many_list_validation.2.2.1 listTransport "test" "news" Option.none Option.none
      ⟨200, envelope (JVal.arr [])⟩ (fun _ => rfl) rfl rfl,
   claim4_fetch_many_list_validation.2.2.2 listTransport "test" ⟨200, envelope (JVal.arr [])⟩
      (fun _ => rfl) rfl⟩

/-- Hex digits are never brace characters. -/
theorem hexDigit_ne_brace {n : Nat} (h : n < 16) :
    hexDigit n ≠ lbrace ∧ hexDigit n ≠ rbrace := by
  interval_cases n <;> exact ⟨by decide, by decide⟩

/-- Escaping one character never emits a brace. -/
theorem percentEscapeChar_no_brace (c : Char) :
    lbrace ∉ percentEscapeChar c ∧ rbrace ∉ percentEscapeChar c := by
  unfold percentEscapeChar
  split
  case isTrue h =>
    constructor <;> intro hmem <;> rw [List.mem_singleton] at hmem <;> subst hmem <;>
      revert h <;> decide
  case isFalse h =>
    have h1 : c.toNat % 256 / 16 < 16 := by omega
    have h2 : c.toNat % 16 < 16 := by omega
    constructor <;> intro hmem <;> simp [List.mem_cons] at hmem
    · rcases hmem with hm | hm | hm
      · exact absurd hm.symm (by decide)
      · exact (hexDigit_ne_brace h1).1 hm.symm
      · exact (hexDigit_ne_brace h2).1 hm.symm
    · rcases hmem with hm | hm | hm
      · exact absurd hm.symm (by decide)
      · exact (hexDigit_ne_brace h1).2 hm.symm
      · exact (hexDigit_ne_brace h2).2 hm.symm

/-- A percent-escaped slug value contains no brace characters. -/
theorem percentEscape_no_brace (s : String) :
    lbrace ∉ (percentEscape s).data ∧ rbrace ∉ (percentEscape s).data := by
  unfold percentEscape
  constructor <;> intro hmem <;>
    rw [show (String.mk (s.toList.flatMap percentEscapeChar)).data =
        s.toList.flatMap percentEscapeChar from rfl, List.mem_flatMap] at hmem <;>
    rcases hmem with ⟨c, _, hc⟩
  · exact (percentEscapeChar_no_brace c).1 hc
  · exact (percentEscapeChar_no_brace c).2 hc

/-- C6: when outbound validation succeeds, `Rest.request` — the single
primitive every entity-client operation calls exactly once — hands
exactly one request to the transport's execute primitive, with no
retries and no cached skipping; instantiated for the operations of the
project, feed, log and insight clients. -/
theorem claim6_exactly_one_request :
    (∀ (tr : Transport) (url : UrlTemplate) (m : String)
      (bws sws : Option DataWithSchema) (rs : Option ResponseSchema) u b,
      prepare_request url bws sws = Except.ok (u, b) →
      (Rest.request tr url m bws sws rs).2 = [⟨m, u, b⟩]) ∧
    (∀ (tr : Transport) (p n : String), p.isEmpty = false → n.isEmpty = false →
      (Rest.create_project tr p n).2.length = 1 ∧
      (Client._create_project tr p n).2.length = 1 ∧
      (Rest.fetch_project tr p).2.length = 1 ∧
      (Rest.delete_project tr p).2.length = 1) ∧
    (∀ (tr : Transport) (p f : String) (limit offset : Option Int),
      p.isEmpty = false → f.isEmpty = false →
      (Rest.delete_feed tr p f).2.length = 1 ∧
      (Rest.fetch_logs tr p f limit offset).2.length = 1) ∧
    (∀ (tr : Transport) (p : String), p.isEmpty = false →
      (Rest.fetch_insights tr p).2.length = 1) := by
  refine ⟨fun tr url m bws sws rs u b h => request_trace_ok h, ?_, ?_, ?_⟩
  · intro tr p n hp hn
    have h1 : prepare_request API_CREATE_PROJECT
        (Option.some ⟨[("namespace", strArg p), ("name", strArg n)],
          ProjectCreateBodySchema⟩) Option.none =
        Except.ok ("/projects", Option.some [("namespace", JVal.str p),
          ("name", JVal.str n)]) := by
      simp [prepare_request, prepare_slugs, BodySchema.load, filterUndefined, strArg,
            ProjectCreateBodySchema, fieldOk_required_str, List.lookup, List.find?,
            renderTemplate, API_CREATE_PROJECT, hp, hn]
    have h2 : prepare_request API_GET_PROJECT Option.none
        (Option.some ⟨[("namespace", strArg p)], ProjectGetSlugSchema⟩) =
        Except.ok ("/projects/" ++ percentEscape p, Option.none) := by
      simp [prepare_request, prepare_slugs, BodySchema.load, filterUndefined, strArg,
            ProjectGetSlugSchema, fieldOk_required_str, List.lookup, List.find?,
            renderTemplate, API_GET_PROJECT, slugStrings, hp]
    refine ⟨?_, ?_, ?_, ?_⟩
    · simp only [Rest.create_project]
      rw [request_trace_ok h1]
      rfl
    · simp only [Client._create_project, ProjectBodySchema]
      rw [request_trace_ok h1]
      rfl
    · simp only [Rest.fetch_project]
      rw [request_trace_ok h2]
      rfl
    · simp only [Rest.delete_project, API_DELETE_PROJECT, ProjectDeleteSlugSchema]
      rw [request_trace_ok h2]
      rfl
  · intro tr p f limit offset hp hf
    have h3 : prepare_request API_DELETE_FEED Option.none
        (Option.some ⟨[("namespace", strArg p), ("feed", strArg f)],
          FeedDeleteSlugSchema⟩) =
        Except.ok ("/projects/" ++ (percentEscape p ++ ("/feeds/" ++ percentEscape f)),
          Option.none) := by
      simp [prepare_request, prepare_slugs, BodySchema.load, filterUndefined, strArg,
            FeedDeleteSlugSchema, FeedPatchSlugSchema, fieldOk_required_str, List.lookup,
            List.find?, renderTemplate, API_DELETE_FEED, API_EDIT_FEED, slugStrings,
            hp, hf]
    refine ⟨?_, ?_⟩
    · simp only [Rest.delete_feed]
      rw [request_trace_ok h3]
      rfl
    · simp only [Rest.fetch_logs]
      rw [request_trace_ok (fetch_logs_prep p f hp hf limit offset)]
      rfl
  · intro tr p hp
    simp only [Rest.fetch_insights]
    rw [request_trace_ok (fetch_insights_prep p hp)]
    rfl

/-- Witness for C6 on concrete operations over a spy transport. -/
theorem claim6_exactly_one_request_witness :
    (Rest.request blankTransport API_CREATE_PROJECT "POST" Option.none Option.none
      Option.none).2 = [⟨"POST", "/projects", Option.none⟩] ∧
    ((Rest.create_project blankTransport "test" "test").2.length = 1 ∧
     (Client._create_project blankTransport "test" "test").2.length = 1 ∧
     (Rest.fetch_project blankTransport "test").2.length = 1 ∧
     (Rest.delete_project blankTransport "test").2.length = 1) ∧
    ((Rest.delete_feed blankTransport "test" "news").2.length = 1 ∧
     (Rest.fetch_logs blankTransport "test" "news" Option.none Option.none).2.length = 1) ∧
    (Rest.fetch_insights blankTransport "test").2.length = 1 :=
  ⟨claim6_exactly_one_request.1 blankTransport API_CREATE_PROJECT "POST" Option.none Option.none
      Option.none "/projects" Option.none rfl,
   claim6_exactly_one_request.2.1 blankTransport "test" "test" rfl rfl,
   claim6_exactly_one_request.2.2.1 blankTransport "test" "news" Option.none Option.none rfl rfl,
   claim6_exactly_one_request.2.2.2 blankTransport "test" rfl⟩

end Lawg

namespace Lawg

/-- Under a complete slug mapping, rendering succeeds and replaces each
segment in place. -/
theorem renderTemplate_complete (tpl : UrlTemplate) (slugs : List (String × String)) :
    (∀ n, Seg.slot n ∈ tpl → (slugs.lookup n).isSome = true) →
    renderTemplate tpl slugs = Option.some (renderAll slugs tpl) := by
  induction tpl with
  | nil => intro _; rfl
  | cons seg rest ih =>
    intro hc
    have hrest := ih (fun n hn => hc n (List.mem_cons_of_mem _ hn))
    cases seg with
    | lit s => simp [renderTemplate, renderAll, segRender, hrest]
    | slot n =>
      have hs := hc n (List.mem_cons_self _ _)
      rcases Option.isSome_iff_exists.mp hs with ⟨v, hv⟩
      simp [renderTemplate, renderAll, segRender, hrest, hv]

/-- The rendered URL of a template with brace-free literals contains no
brace characters. -/
theorem renderAll_no_brace (slugs : List (String × String)) (tpl : UrlTemplate) :
    (∀ s, Seg.lit s ∈ tpl → lbrace ∉ s.data ∧ rbrace ∉ s.data) →
    lbrace ∉ (renderAll slugs tpl).data ∧ rbrace ∉ (renderAll slugs tpl).data := by
  induction tpl with
  | nil => exact fun _ => ⟨(fun h => nomatch h), (fun h => nomatch h)⟩
  | cons seg rest ih =>
    intro hb
    have hrest := ih (fun s hs => hb s (List.mem_cons_of_mem _ hs))
    have hseg : lbrace ∉ (segRender slugs seg).data ∧
        rbrace ∉ (segRender slugs seg).data := by
      cases seg with
      | lit s => exact hb s (List.mem_cons_self _ _)
      | slot n => exact percentEscape_no_brace _
    constructor <;> intro hmem <;>
      rw [show (renderAll slugs (seg :: rest)).data =
          (segRender slugs seg).data ++ (renderAll slugs rest).data from rfl,
        List.mem_append] at hmem
    · rcases hmem with hm | hm
      · exact hseg.1 hm
      · exact hrest.1 hm
    · rcases hmem with hm | hm
      · exact hseg.2 hm
      · exact hrest.2 hm

/-- A template containing a placeholder with no slug entry fails to
render. -/
theorem renderTemplate_missing (tpl : UrlTemplate) (slugs : List (String × String))
    (n : String) : Seg.slot n ∈ tpl → slugs.lookup n = Option.none →
    renderTemplate tpl slugs = Option.none := by
  induction tpl with
  | nil => exact fun h _ => nomatch h
  | cons seg rest ih =>
    intro hmem hnone
    rcases List.mem_cons.mp hmem with heq | hrest
    · subst heq
      simp [renderTemplate, hnone]
    · cases seg with
      | lit s => simp [renderTemplate, ih hrest hnone]
      | slot n2 =>
        cases hl : slugs.lookup n2 with
        | none => simp [renderTemplate, hl]
        | some v => simp [renderTemplate, hl, ih hrest hnone]

/-- C5: with a complete slug mapping, the rendered URL replaces every
placeholder exactly once by the corresponding percent-escaped slug value
and contains no leftover brace token; a placeholder with no slug entry
makes rendering — and hence request construction — fail. -/
theorem claim5_url_template_rendering (tpl : UrlTemplate) (slugs : List (String × String))
    (hc : ∀ n, Seg.slot n ∈ tpl → (slugs.lookup n).isSome = true)
    (hb : ∀ s, Seg.lit s ∈ tpl → lbrace ∉ s.data ∧ rbrace ∉ s.data) :
    renderTemplate tpl slugs = Option.some (renderAll slugs tpl) ∧
    (∀ n v, slugs.lookup n = Option.some v →
      segRender slugs (Seg.slot n) = percentEscape v) ∧
    (lbrace ∉ (renderAll slugs tpl).data ∧ rbrace ∉ (renderAll slugs tpl).data) ∧
    (∀ (tpl2 : UrlTemplate) (slugs2 : List (String × String)) n,
      Seg.slot n ∈ tpl2 → slugs2.lookup n = Option.none →
      renderTemplate tpl2 slugs2 = Option.none) ∧
    (∀ (url : UrlTemplate) (bws : Option DataWithSchema) (sws : DataWithSchema) sd,
      sws.schema.load (filterUndefined sws.data) = Except.ok sd →
      renderTemplate url (slugStrings sd) = Option.none →
      prepare_request url bws (Option.some sws) =
        Except.error ⟨"slugs", "missing slug for placeholder"⟩) := by
  refine ⟨renderTemplate_complete tpl slugs hc, ?_, renderAll_no_brace slugs tpl hb,
    renderTemplate_missing, ?_⟩
  · intro n v hv
    simp [segRender, hv]
  · intro url bws sws sd hload hrender
    unfold prepare_request prepare_slugs
    have hsd : sd = filterUndefined sws.data := BodySchema.load_ok_eq hload
    subst hsd
    simp only [hload, hrender]

/-- Witness for C5 on the feed-edit template with a complete slug
mapping. -/
theorem claim5_url_template_rendering_witness :
    (renderTemplate API_EDIT_FEED [("namespace", "test"), ("feed", "news")] =
      Option.some (renderAll [("namespace", "test"), ("feed", "news")] API_EDIT_FEED)) ∧
    (∀ n v, List.lookup n [("namespace", "test"), ("feed", "news")] = Option.some v →
      segRender [("namespace", "test"), ("feed", "news")] (Seg.slot n) = percentEscape v) ∧
    (lbrace ∉ (renderAll [("namespace", "test"), ("feed", "news")] API_EDIT_FEED).data ∧
     rbrace ∉ (renderAll [("namespace", "test"), ("feed", "news")] API_EDIT_FEED).data) ∧
    (∀ (tpl2 : UrlTemplate) (slugs2 : List (String × String)) n,
      Seg.slot n ∈ tpl2 → slugs2.lookup n = Option.none →
      renderTemplate tpl2 slugs2 = Option.none) ∧
    (∀ (url : UrlTemplate) (bws : Option DataWithSchema) (sws : DataWithSchema) sd,
      sws.schema.load (filterUndefined sws.data) = Except.ok sd →
      renderTemplate url (slugStrings sd) = Option.none →
      prepare_request url bws (Option.some sws) =
        Except.error ⟨"slugs", "missing slug for placeholder"⟩) :=
  claim5_url_template_rendering API_EDIT_FEED [("namespace", "test"), ("feed", "news")]
    (by
      intro n hn
      simp [API_EDIT_FEED] at hn
      rcases hn with rfl | rfl <;> rfl)
    (by
      intro s hs
      simp [API_EDIT_FEED] at hs
      rcases hs with rfl | rfl | rfl <;> exact ⟨by decide, by decide⟩)

/-- C7: an edit operation called with every optional field left at the
sentinel is not special-cased away: it still issues its PATCH request,
with an empty JSON body (all sentinel fields filtered out). -/
theorem claim7_all_sentinel_edit_requests (tr : Transport) (p f lid iid : String)
    (hp : p.isEmpty = false) (hf : f.isEmpty = false)
    (hl : lid.isEmpty = false) (hi : iid.isEmpty = false) :
    (∃ u, (Rest.edit_feed tr p f Arg.undef Arg.undef Arg.undef).2 =
      [⟨"PATCH", u, Option.some []⟩]) ∧
    (∃ u, (Rest.edit_log tr p f lid Arg.undef Arg.undef Arg.undef).2 =
      [⟨"PATCH", u, Option.some []⟩]) ∧
    (∃ u, (Rest.edit_insight tr p iid Arg.undef Arg.undef Arg.undef Arg.undef).2 =
      [⟨"PATCH", u, Option.some []⟩]) := by
  refine ⟨?_, ?_, ?_⟩
  · have hprep : prepare_request API_EDIT_FEED
        (Option.some ⟨[("name", Arg.undef), ("description", Arg.undef),
          ("emoji", Arg.undef)], FeedPatchBodySchema⟩)
        (Option.some ⟨[("namespace", strArg p), ("feed", strArg f)],
          FeedPatchSlugSchema⟩) =
        Except.ok ("/projects/" ++ (percentEscape p ++ ("/feeds/" ++ percentEscape f)),
          Option.some []) := by
      simp [prepare_request, prepare_slugs, BodySchema.load, filterUndefined, strArg,
            FeedPatchBodySchema, FeedPatchSlugSchema, fieldOk_required_str, List.lookup,
            List.find?, renderTemplate, API_EDIT_FEED, slugStrings, hp, hf]
    exact ⟨_, by simp only [Rest.edit_feed]; rw [request_trace_ok hprep]⟩
  · have hprep : prepare_request API_EDIT_LOG
        (Option.some ⟨[("title", Arg.undef), ("description", Arg.undef),
          ("emoji", Arg.undef)], LogPatchBodySchema⟩)
        (Option.some ⟨[("namespace", strArg p), ("feed", strArg f),
          ("log_id", strArg lid)], LogPatchSlugSchema⟩) =
        Except.ok ("/projects/" ++ (percentEscape p ++ ("/feeds/" ++ (percentEscape f ++
          ("/logs/" ++ percentEscape lid)))), Option.some []) := by
      simp [prepare_request, prepare_slugs, BodySchema.load, filterUndefined, strArg,
            LogPatchBodySchema, LogPatchSlugSchema, LogGetSlugSchema, fieldOk_required_str,
            List.lookup, List.find?, renderTemplate, API_EDIT_LOG, API_GET_LOG,
            slugStrings, hp, hf, hl]
    exact ⟨_, by simp only [Rest.edit_log]; rw [request_trace_ok hprep]⟩
  · have hprep : prepare_request API_EDIT_INSIGHT
        (Option.some ⟨[("title", Arg.undef), ("description", Arg.undef),
          ("emoji", Arg.undef), ("value", Arg.undef)], InsightPatchBodySchema⟩)
        (Option.some ⟨[("namespace", strArg p), ("insight_id", strArg iid)],
          InsightPatchSlugSchema⟩) =
        Except.ok ("/projects/" ++ (percentEscape p ++ ("/insights/" ++ percentEscape iid)),
          Option.some []) := by
      simp [prepare_request, prepare_slugs, BodySchema.load, filterUndefined, strArg,
            InsightPatchBodySchema, InsightPatchSlugSchema, InsightGetSlugSchema,
            fieldOk_required_str, List.lookup, List.find?, renderTemplate,
            API_EDIT_INSIGHT, slugStrings, hp, hi]
    exact ⟨_, by simp only [Rest.edit_insight]; rw [request_trace_ok hprep]⟩

/-- Witness for C7 at concrete inputs over a spy transport. -/
theorem claim7_all_sentinel_edit_requests_witness :
    (∃ u, (Rest.edit_feed blankTransport "test" "news" Arg.undef Arg.undef Arg.undef).2 =
      [⟨"PATCH", u, Option.some []⟩]) ∧
    (∃ u, (Rest.edit_log blankTransport "test" "news" "1" Arg.undef Arg.undef
      Arg.undef).2 = [⟨"PATCH", u, Option.some []⟩]) ∧
    (∃ u, (Rest.edit_insight blankTransport "test" "2" Arg.undef Arg.undef Arg.undef
      Arg.undef).2 = [⟨"PATCH", u, Option.some []⟩]) :=
  claim7_all_sentinel_edit_requests blankTransport "test" "news" "1" "2" rfl rfl rfl rfl

/-- The prepared request of `delete_project` on a non-empty namespace. -/
theorem delete_project_prep (ns : String) (hp : ns.isEmpty = false) :
    prepare_request API_DELETE_PROJECT Option.none
      (Option.some ⟨[("namespace", strArg ns)], ProjectDeleteSlugSchema⟩) =
      Except.ok ("/projects/" ++ percentEscape ns, Option.none) := by
  simp [prepare_request, prepare_slugs, BodySchema.load, filterUndefined, strArg,
        ProjectDeleteSlugSchema, ProjectGetSlugSchema, fieldOk_required_str, List.lookup,
        List.find?, renderTemplate, API_DELETE_PROJECT, API_GET_PROJECT, slugStrings, hp]

/-- The prepared request of `delete_log` on non-empty slugs. -/
theorem delete_log_prep (p f lid : String) (hp : p.isEmpty = false)
    (hf : f.isEmpty = false) (hl : lid.isEmpty = false) :
    prepare_request API_DELETE_LOG Option.none
      (Option.some ⟨[("namespace", strArg p), ("feed", strArg f),
        ("log_id", strArg lid)], LogDeleteSlugSchema⟩) =
      Except.ok ("/projects/" ++ (percentEscape p ++ ("/feeds/" ++ (percentEscape f ++
        ("/logs/" ++ percentEscape lid)))), Option.none) := by
  simp [prepare_request, prepare_slugs, BodySchema.load, filterUndefined, strArg,
        LogDeleteSlugSchema, LogGetSlugSchema, fieldOk_required_str, List.lookup,
        List.find?, renderTemplate, API_DELETE_LOG, API_GET_LOG, slugStrings, hp, hf, hl]

/-- C8: deleting through a handle already flagged deleted raises the
already-deleted error and performs no network request; on a fresh handle
the core delete request is issued, `is_deleted` becomes true only when
the core call succeeds and stays false when it raises. The core delete
itself takes no deletion state, so every core-level invocation issues
its one request again. -/
theorem claim8_wrapper_delete_state (tr : Transport) (h : ProjectHandle) (he : EventHandle)
    (hns : h.namespaceSlug.isEmpty = false)
    (hens : he.namespaceSlug.isEmpty = false) (hef : he.feedSlug.isEmpty = false)
    (hei : he.id.isEmpty = false) :
    (h.is_deleted = true →
      Project.delete tr h = (Except.error (LawgError.alreadyDeleted "project"), h, [])) ∧
    (h.is_deleted = false →
      ∃ req, (Rest.delete_project tr h.namespaceSlug).2 = [req] ∧
        ((∃ e, (Rest.delete_project tr h.namespaceSlug).1 = Except.error e ∧
           Project.delete tr h = (Except.error e, h, [req])) ∨
         (∃ d, (Rest.delete_project tr h.namespaceSlug).1 = Except.ok d ∧
           Project.delete tr h =
             (Except.ok (), { h with is_deleted := true }, [req])))) ∧
    (he.is_deleted = true →
      Event.delete tr he = (Except.error (LawgError.alreadyDeleted "event"), he, [])) ∧
    (he.is_deleted = false →
      ∃ req, (Rest.delete_event tr he.namespaceSlug he.feedSlug he.id).2 = [req] ∧
        ((∃ e, (Rest.delete_event tr he.namespaceSlug he.feedSlug he.id).1 =
            Except.error e ∧
           Event.delete tr he = (Except.error e, he, [req])) ∨
         (∃ d, (Rest.delete_event tr he.namespaceSlug he.feedSlug he.id).1 =
            Except.ok d ∧
           Event.delete tr he =
             (Except.ok (), { he with is_deleted := true }, [req])))) ∧
    (∀ ns, ns.isEmpty = false → ∃ req, (Rest.delete_project tr ns).2 = [req]) := by
  have hcoreP : ∀ ns, ns.isEmpty = false →
      (Rest.delete_project tr ns).2 = [⟨"DELETE", "/projects/" ++ percentEscape ns,
        Option.none⟩] := by
    intro ns hns2
    simp only [Rest.delete_project]
    rw [request_trace_ok (delete_project_prep ns hns2)]
  refine ⟨?_, ?_, ?_, ?_, fun ns hns2 => ⟨_, hcoreP ns hns2⟩⟩
  · intro hd
    simp [Project.delete, hd]
  · intro hd
    refine ⟨⟨"DELETE", "/projects/" ++ percentEscape h.namespaceSlug, Option.none⟩,
      hcoreP _ hns, ?_⟩
    rcases hres : (Rest.delete_project tr h.namespaceSlug).1 with e | d
    · refine Or.inl ⟨e, rfl, ?_⟩
      have hpair : Rest.delete_project tr h.namespaceSlug =
          (Except.error e, [⟨"DELETE", "/projects/" ++ percentEscape h.namespaceSlug,
            Option.none⟩]) := by
        rw [← hres, ← hcoreP _ hns]
      simp [Project.delete, hd, hpair]
    · refine Or.inr ⟨d, rfl, ?_⟩
      have hpair : Rest.delete_project tr h.namespaceSlug =
          (Except.ok d, [⟨"DELETE", "/projects/" ++ percentEscape h.namespaceSlug,
            Option.none⟩]) := by
        rw [← hres, ← hcoreP _ hns]
      simp [Project.delete, hd, hpair]
  · intro hd
    simp [Event.delete, hd]
  · intro hd
    have hcoreE : (Rest.delete_event tr he.namespaceSlug he.feedSlug he.id).2 =
        [⟨"DELETE", "/projects/" ++ (percentEscape he.namespaceSlug ++ ("/feeds/" ++
          (percentEscape he.feedSlug ++ ("/logs/" ++ percentEscape he.id)))),
          Option.none⟩] := by
      simp only [Rest.delete_event, Rest.delete_log]
      rw [request_trace_ok (delete_log_prep _ _ _ hens hef hei)]
    refine ⟨_, hcoreE, ?_⟩
    rcases hres : (Rest.delete_event tr he.namespaceSlug he.feedSlug he.id).1 with e | d
    · refine Or.inl ⟨e, rfl, ?_⟩
      have hpair : Rest.delete_event tr he.namespaceSlug he.feedSlug he.id =
          (Except.error e, [⟨"DELETE", "/projects/" ++ (percentEscape he.namespaceSlug ++
            ("/feeds/" ++ (percentEscape he.feedSlug ++ ("/logs/" ++
            percentEscape he.id)))), Option.none⟩]) := by
        rw [← hres, ← hcoreE]
      simp [Event.delete, hd, hpair]
    · refine Or.inr ⟨d, rfl, ?_⟩
      have hpair : Rest.delete_event tr he.namespaceSlug he.feedSlug he.id =
          (Except.ok d, [⟨"DELETE", "/projects/" ++ (percentEscape he.namespaceSlug ++
            ("/feeds/" ++ (percentEscape he.feedSlug ++ ("/logs/" ++
            percentEscape he.id)))), Option.none⟩]) := by
        rw [← hres, ← hcoreE]
      simp [Event.delete, hd, hpair]

/-- Witness for C8 on fresh concrete handles over a spy transport. -/
theorem claim8_wrapper_delete_state_witness :
    ((⟨"test", false⟩ : ProjectHandle).is_deleted = true →
      Project.delete blankTransport ⟨"test", false⟩ =
        (Except.error (LawgError.alreadyDeleted "project"), ⟨"test", false⟩, [])) ∧
    ((⟨"test", false⟩ : ProjectHandle).is_deleted = false →
      ∃ req, (Rest.delete_project blankTransport
          (⟨"test", false⟩ : ProjectHandle).namespaceSlug).2 = [req] ∧
        ((∃ e, (Rest.delete_project blankTransport
            (⟨"test", false⟩ : ProjectHandle).namespaceSlug).1 = Except.error e ∧
           Project.delete blankTransport ⟨"test", false⟩ =
             (Except.error e, ⟨"test", false⟩, [req])) ∨
         (∃ d, (Rest.delete_project blankTransport
            (⟨"test", false⟩ : ProjectHandle).namespaceSlug).1 = Except.ok d ∧
           Project.delete blankTransport ⟨"test", false⟩ =
             (Except.ok (), { (⟨"test", false⟩ : ProjectHandle) with
               is_deleted := true }, [req])))) ∧
    ((⟨"test", "news", "1", false⟩ : EventHandle).is_deleted = true →
      Event.delete blankTransport ⟨"test", "news", "1", false⟩ =
        (Except.error (LawgError.alreadyDeleted "event"),
          ⟨"test", "news", "1", false⟩, [])) ∧
    ((⟨"test", "news", "1", false⟩ : EventHandle).is_deleted = false →
      ∃ req, (Rest.delete_event blankTransport
          (⟨"test", "news", "1", false⟩ : EventHandle).namespaceSlug
          (⟨"test", "news", "1", false⟩ : EventHandle).feedSlug
          (⟨"test", "news", "1", false⟩ : EventHandle).id).2 = [req] ∧
        ((∃ e, (Rest.delete_event blankTransport
            (⟨"test", "news", "1", false⟩ : EventHandle).namespaceSlug
            (⟨"test", "news", "1", false⟩ : EventHandle).feedSlug
            (⟨"test", "news", "1", false⟩ : EventHandle).id).1 = Except.error e ∧
           Event.delete blankTransport ⟨"test", "news", "1", false⟩ =
             (Except.error e, ⟨"test", "news", "1", false⟩, [req])) ∨
         (∃ d, (Rest.delete_event blankTransport
            (⟨"test", "news", "1", false⟩ : EventHandle).namespaceSlug
            (⟨"test", "news", "1", false⟩ : EventHandle).feedSlug
            (⟨"test", "news", "1", false⟩ : EventHandle).id).1 = Except.ok d ∧
           Event.delete blankTransport ⟨"test", "news", "1", false⟩ =
             (Except.ok (), { (⟨"test", "news", "1", false⟩ : EventHandle) with
               is_deleted := true }, [req])))) ∧
    (∀ ns, ns.isEmpty = false →
      ∃ req, (Rest.delete_project blankTransport ns).2 = [req]) :=
  claim8_wrapper_delete_state blankTransport ⟨"test", false⟩ ⟨"test", "news", "1", false⟩
    rfl rfl rfl rfl

/-- C9: validation is idempotent on the body mapping
`\x7bname: "foo", namespace: "bar"\x7d`: loading it through the project
body schema succeeds with the unchanged mapping, and feeding that
normalized result back through the same schema yields it unchanged
again. -/
theorem claim9_validation_idempotent :
    BaseClient._validate_create_request "bar" "foo" =
      Except.ok [("name", JVal.str "foo"), ("namespace", JVal.str "bar")] ∧
    ProjectBodySchema.load [("name", JVal.str "foo"), ("namespace", JVal.str "bar")] =
      Except.ok [("name", JVal.str "foo"), ("namespace", JVal.str "bar")] :=
  ⟨rfl, rfl⟩

/-- C10: for every input, `BaseClient._validate_fetch_request` (alias
`_validate_delete_request`) and `BaseClient._validate_feed_delete_request`
raise `NameError` instead of validating, because `ProjectGetSchema` and
`FeedDeleteSchema` are bound nowhere in `lawg/base/client.py`; the
intended `ValidationError` path is unreachable through these helpers. -/
theorem claim10_validators_name_error (ns fn : String) :
    BaseClient._validate_fetch_request ns = PyOutcome.nameError "ProjectGetSchema" ∧
    BaseClient._validate_delete_request ns = PyOutcome.nameError "ProjectGetSchema" ∧
    BaseClient._validate_feed_delete_request ns fn =
      PyOutcome.nameError "FeedDeleteSchema" ∧
    (∀ e, BaseClient._validate_fetch_request ns ≠ PyOutcome.validationFail e) ∧
    (∀ e, BaseClient._validate_feed_delete_request ns fn ≠ PyOutcome.validationFail e) := by
  refine ⟨rfl, rfl, rfl, ?_, ?_⟩ <;> intro e h <;> exact PyOutcome.noConfusion h

end Lawg
